import Mathlib

/-!
Verification of the daylight-duration core of `day_duration.py`.

The three arithmetic functions of the module, `get_declination_spencer`,
`get_declination_kuper` and `calculate_daylight_hours`, are shallowly
embedded over `ℝ`: `np.sin`/`np.cos`/`np.tan`/`np.arccos` become
`Real.sin`/`Real.cos`/`Real.tan`/`Real.arccos`, `np.radians`/`np.degrees`
become the corresponding linear maps, and `np.clip` becomes a `min`/`max`
combination.  The plotting code carries no arithmetic of interest and is
not modelled.
-/

open Real

namespace DayDuration

/-- `np.radians`: degrees to radians. -/
noncomputable def radians (x : ℝ) : ℝ := x * π / 180

/-- `np.degrees`: radians to degrees. -/
noncomputable def degrees (x : ℝ) : ℝ := x * 180 / π

/-- `np.clip(a, amin, amax)`. -/
noncomputable def clip (a amin amax : ℝ) : ℝ := min amax (max a amin)

/-- `get_declination_spencer` of `day_duration.py` (lines 17-25),
with the literal coefficients of the source. -/
noncomputable def get_declination_spencer (day_of_year : ℝ) : ℝ :=
  let beta := radians (360 * (day_of_year - 1) / 365)
  (180 / π) * (0.006918
      - 0.399912 * Real.cos beta + 0.070257 * Real.sin beta
      - 0.006758 * Real.cos (2 * beta) + 0.00907 * Real.sin (2 * beta)
      - 0.002697 * Real.cos (3 * beta) + 0.00148 * Real.sin (3 * beta))

/-- `get_declination_kuper` of `day_duration.py` (lines 28-30). -/
noncomputable def get_declination_kuper (day_of_year : ℝ) : ℝ :=
  23.45 * Real.sin (radians (360 * (284 + day_of_year) / 365))

/-- `calculate_daylight_hours` of `day_duration.py` (lines 33-65). -/
noncomputable def calculate_daylight_hours (day_of_year latitude : ℝ) : ℝ :=
  let declination := get_declination_spencer day_of_year
  let lat_rad := radians latitude
  let dec_rad := radians declination
  let refraction_correction := radians 0.8333
  let test_cos := Real.cos lat_rad * Real.cos dec_rad
  if |test_cos| < 1e-10 then
    if Real.sin lat_rad * Real.sin dec_rad > 0 then 24.0 else 0.0
  else
    let cos_h := -Real.tan lat_rad * Real.tan dec_rad
        - Real.sin refraction_correction / (Real.cos lat_rad * Real.cos dec_rad)
    if cos_h ≥ 1 then 0.0
    else if cos_h ≤ -1 then 24.0
    else
      let cos_h := clip cos_h (-1.0) 1.0
      let h := degrees (Real.arccos cos_h)
      2 * h / 15.0

/-- The hour-angle cosine computed at line 51 of the source (the value
tested by the two polar short-circuits). -/
noncomputable def cos_h (day_of_year latitude : ℝ) : ℝ :=
  -Real.tan (radians latitude) * Real.tan (radians (get_declination_spencer day_of_year))
    - Real.sin (radians 0.8333)
      / (Real.cos (radians latitude) * Real.cos (radians (get_declination_spencer day_of_year)))

/-- The quantity `test_cos` guarded at lines 46-47 of the source. -/
noncomputable def test_cos (day_of_year latitude : ℝ) : ℝ :=
  Real.cos (radians latitude) * Real.cos (radians (get_declination_spencer day_of_year))

/-- Variant of `calculate_daylight_hours` with the `np.clip` at line 59
removed (claim C10 compares it with the implemented function). -/
noncomputable def calculate_daylight_hours_noclip (day_of_year latitude : ℝ) : ℝ :=
  let declination := get_declination_spencer day_of_year
  let lat_rad := radians latitude
  let dec_rad := radians declination
  let refraction_correction := radians 0.8333
  let test_cos := Real.cos lat_rad * Real.cos dec_rad
  if |test_cos| < 1e-10 then
    if Real.sin lat_rad * Real.sin dec_rad > 0 then 24.0 else 0.0
  else
    let cos_h := -Real.tan lat_rad * Real.tan dec_rad
        - Real.sin refraction_correction / (Real.cos lat_rad * Real.cos dec_rad)
    if cos_h ≥ 1 then 0.0
    else if cos_h ≤ -1 then 24.0
    else
      let h := degrees (Real.arccos cos_h)
      2 * h / 15.0

/-! ### Branch lemmas for `calculate_daylight_hours` -/

lemma calculate_daylight_hours_eq (D L : ℝ) :
    calculate_daylight_hours D L =
      if |test_cos D L| < 1e-10 then
        if Real.sin (radians L) * Real.sin (radians (get_declination_spencer D)) > 0
        then 24.0 else 0.0
      else if cos_h D L ≥ 1 then 0.0
      else if cos_h D L ≤ -1 then 24.0
      else 2 * degrees (Real.arccos (clip (cos_h D L) (-1.0) 1.0)) / 15.0 := rfl

lemma calculate_daylight_hours_noclip_eq (D L : ℝ) :
    calculate_daylight_hours_noclip D L =
      if |test_cos D L| < 1e-10 then
        if Real.sin (radians L) * Real.sin (radians (get_declination_spencer D)) > 0
        then 24.0 else 0.0
      else if cos_h D L ≥ 1 then 0.0
      else if cos_h D L ≤ -1 then 24.0
      else 2 * degrees (Real.arccos (cos_h D L)) / 15.0 := rfl

lemma daylight_guard {D L : ℝ} (h : |test_cos D L| < 1e-10) :
    calculate_daylight_hours D L =
      if Real.sin (radians L) * Real.sin (radians (get_declination_spencer D)) > 0
      then 24.0 else 0.0 := by
  rw [calculate_daylight_hours_eq, if_pos h]

lemma daylight_polar_night {D L : ℝ} (hg : ¬ |test_cos D L| < 1e-10)
    (h : 1 ≤ cos_h D L) : calculate_daylight_hours D L = 0 := by
  rw [calculate_daylight_hours_eq, if_neg hg, if_pos (ge_iff_le.mpr h)]
  norm_num

lemma daylight_polar_day {D L : ℝ} (hg : ¬ |test_cos D L| < 1e-10)
    (h : cos_h D L ≤ -1) : calculate_daylight_hours D L = 24 := by
  rw [calculate_daylight_hours_eq, if_neg hg,
    if_neg (by simp only [ge_iff_le, not_le]; linarith), if_pos h]
  norm_num

lemma daylight_arccos {D L : ℝ} (hg : ¬ |test_cos D L| < 1e-10)
    (h1 : -1 < cos_h D L) (h2 : cos_h D L < 1) :
    calculate_daylight_hours D L = 2 * degrees (Real.arccos (cos_h D L)) / 15 := by
  rw [calculate_daylight_hours_eq, if_neg hg,
    if_neg (by simp only [ge_iff_le, not_le]; exact h2),
    if_neg (by simp only [not_le]; exact h1)]
  have hclip : clip (cos_h D L) (-1.0) 1.0 = cos_h D L := by
    unfold clip
    rw [max_eq_left (show (-1.0 : ℝ) ≤ cos_h D L by norm_num; linarith),
      min_eq_right (show cos_h D L ≤ (1.0 : ℝ) by norm_num; linarith)]
  rw [hclip]
  norm_num

/-! ### C1: output always within [0, 24] -/

lemma daylight_range (D L : ℝ) :
    0 ≤ calculate_daylight_hours D L ∧ calculate_daylight_hours D L ≤ 24 := by
  rw [calculate_daylight_hours_eq]
  split_ifs with h1 h2 h3 h4
  · norm_num
  · norm_num
  · norm_num
  · norm_num
  · have h5 := Real.arccos_nonneg (clip (cos_h D L) (-1.0) 1.0)
    have h6 := Real.arccos_le_pi (clip (cos_h D L) (-1.0) 1.0)
    have hpi := Real.pi_pos
    unfold degrees
    constructor
    · positivity
    · rw [div_le_iff₀ (by norm_num : (0:ℝ) < 15.0)]
      have h7 : Real.arccos (clip (cos_h D L) (-1.0) 1.0) * 180 / π ≤ 180 := by
        rw [div_le_iff₀ hpi]
        nlinarith
      nlinarith

/-- C1: for every day-of-year `D` and latitude `L` with `-90 < L < 90`,
`calculate_daylight_hours D L` lies in `[0, 24]`. -/
theorem c1_daylight_in_unit_day (D L : ℝ) (h1 : -90 < L) (h2 : L < 90) :
    0 ≤ calculate_daylight_hours D L ∧ calculate_daylight_hours D L ≤ 24 :=
  daylight_range D L

/-- Witness for C1 at `D = 1`, `L = 0`. -/
theorem c1_witness :
    (-90 : ℝ) < 0 ∧ (0 : ℝ) < 90 ∧
      (0 ≤ calculate_daylight_hours 1 0 ∧ calculate_daylight_hours 1 0 ≤ 24) :=
  ⟨by norm_num, by norm_num, c1_daylight_in_unit_day 1 0 (by norm_num) (by norm_num)⟩

/-! ### C9: both declination estimators are periodic with period 365 -/

lemma radians_shift (d : ℝ) :
    radians (360 * (d + 365 - 1) / 365) = radians (360 * (d - 1) / 365) + 2 * π := by
  unfold radians; ring

lemma cos_add_four_pi (x : ℝ) : Real.cos (x + 4 * π) = Real.cos x := by
  have h : x + 4 * π = x + 2 * π + 2 * π := by ring
  rw [h, Real.cos_add_two_pi, Real.cos_add_two_pi]

lemma sin_add_four_pi (x : ℝ) : Real.sin (x + 4 * π) = Real.sin x := by
  have h : x + 4 * π = x + 2 * π + 2 * π := by ring
  rw [h, Real.sin_add_two_pi, Real.sin_add_two_pi]

lemma cos_add_six_pi (x : ℝ) : Real.cos (x + 6 * π) = Real.cos x := by
  have h : x + 6 * π = x + 4 * π + 2 * π := by ring
  rw [h, Real.cos_add_two_pi, cos_add_four_pi]

lemma sin_add_six_pi (x : ℝ) : Real.sin (x + 6 * π) = Real.sin x := by
  have h : x + 6 * π = x + 4 * π + 2 * π := by ring
  rw [h, Real.sin_add_two_pi, sin_add_four_pi]

/-- C9: both declination estimators are 365-periodic over all real inputs
(and, being total functions of a real argument, accept any real input). -/
theorem c9_declination_periodic (d : ℝ) :
    get_declination_spencer (d + 365) = get_declination_spencer d ∧
      get_declination_kuper (d + 365) = get_declination_kuper d := by
  constructor
  · simp only [get_declination_spencer]
    rw [radians_shift d]
    have h2 : 2 * (radians (360 * (d - 1) / 365) + 2 * π) =
        2 * radians (360 * (d - 1) / 365) + 4 * π := by ring
    have h3 : 3 * (radians (360 * (d - 1) / 365) + 2 * π) =
        3 * radians (360 * (d - 1) / 365) + 6 * π := by ring
    rw [h2, h3, Real.cos_add_two_pi, Real.sin_add_two_pi, cos_add_four_pi,
      sin_add_four_pi, cos_add_six_pi, sin_add_six_pi]
  · unfold get_declination_kuper
    have h : radians (360 * (284 + (d + 365)) / 365) =
        radians (360 * (284 + d) / 365) + 2 * π := by
      unfold radians; ring
    rw [h, Real.sin_add_two_pi]

/-! ### Taylor-polynomial bounds for `sin` and `cos`

The numeric claims need two-sided rational bounds on the trigonometric
functions.  We derive the classical alternating Taylor bounds

* `x - x³/6 + x⁵/120 - x⁷/5040 ≤ sin x ≤ x - x³/6 + x⁵/120` for `0 ≤ x`,
* `1 - x²/2 + x⁴/24 - x⁶/720 ≤ cos x ≤ 1 - x²/2 + x⁴/24 - x⁶/720 + x⁸/40320`

by repeated integration of `sin x ≤ x`, via the mean-value theorem. -/

lemma nonneg_on_Ici (f f' : ℝ → ℝ) (hder : ∀ t : ℝ, HasDerivAt f (f' t) t)
    (h0 : f 0 = 0) (hnn : ∀ t : ℝ, 0 ≤ t → 0 ≤ f' t) :
    ∀ x : ℝ, 0 ≤ x → 0 ≤ f x := by
  intro x hx
  have hmono : MonotoneOn f (Set.Ici (0 : ℝ)) := by
    apply monotoneOn_of_deriv_nonneg (convex_Ici 0)
    · intro t _
      exact (hder t).continuousAt.continuousWithinAt
    · intro t _
      exact (hder t).differentiableAt.differentiableWithinAt
    · intro t ht
      rw [(hder t).deriv]
      rw [interior_Ici] at ht
      exact hnn t (le_of_lt ht)
  have h := hmono Set.left_mem_Ici (Set.mem_Ici.mpr hx) hx
  rw [h0] at h
  exact h

lemma sin_le_self (x : ℝ) (hx : 0 ≤ x) : Real.sin x ≤ x := by
  rcases eq_or_lt_of_le hx with h | h
  · rw [← h]; simp
  · exact (Real.sin_lt h).le

lemma sin_ge_cubic (x : ℝ) (hx : 0 ≤ x) : x - x^3/6 ≤ Real.sin x := by
  have key : 0 ≤ Real.sin x - (x - x^3/6) := by
    refine nonneg_on_Ici (fun s => Real.sin s - (s - s^3/6))
      (fun t => Real.cos t - (1 - t^2/2)) ?_ ?_ ?_ x hx
    · intro t
      have hp : HasDerivAt (fun s : ℝ => s - s^3/6) (1 - t^2/2) t := by
        have h1 : HasDerivAt (fun s : ℝ => s) 1 t := hasDerivAt_id t
        have h3 := (hasDerivAt_pow 3 t).div_const 6
        have := h1.sub h3
        convert this using 1
        push_cast
        ring
      exact (Real.hasDerivAt_sin t).sub hp
    · norm_num
    · intro t _
      have := Real.one_sub_sq_div_two_le_cos (x := t)
      linarith
  linarith

lemma cos_le_quartic (x : ℝ) : Real.cos x ≤ 1 - x^2/2 + x^4/24 := by
  have main : ∀ y : ℝ, 0 ≤ y → Real.cos y ≤ 1 - y^2/2 + y^4/24 := by
    intro y hy
    have key : 0 ≤ 1 - y^2/2 + y^4/24 - Real.cos y := by
      refine nonneg_on_Ici (fun s => 1 - s^2/2 + s^4/24 - Real.cos s)
        (fun t => Real.sin t - (t - t^3/6)) ?_ ?_ ?_ y hy
      · intro t
        have hp : HasDerivAt (fun s : ℝ => 1 - s^2/2 + s^4/24) (-t + t^3/6) t := by
          have h2 := (hasDerivAt_pow 2 t).div_const 2
          have h4 := (hasDerivAt_pow 4 t).div_const 24
          have := ((hasDerivAt_const t (1:ℝ)).sub h2).add h4
          convert this using 1
          push_cast
          ring
        have := hp.sub (Real.hasDerivAt_cos t)
        convert this using 1
        ring
      · norm_num
      · intro t ht
        have := sin_ge_cubic t ht
        linarith
    linarith
  rcases le_total 0 x with h | h
  · exact main x h
  · have h2 := main (-x) (by linarith)
    rw [Real.cos_neg] at h2
    have e : 1 - (-x)^2/2 + (-x)^4/24 = 1 - x^2/2 + x^4/24 := by ring
    linarith [e.le, e.ge]

lemma sin_le_quintic (x : ℝ) (hx : 0 ≤ x) : Real.sin x ≤ x - x^3/6 + x^5/120 := by
  have key : 0 ≤ x - x^3/6 + x^5/120 - Real.sin x := by
    refine nonneg_on_Ici (fun s => s - s^3/6 + s^5/120 - Real.sin s)
      (fun t => 1 - t^2/2 + t^4/24 - Real.cos t) ?_ ?_ ?_ x hx
    · intro t
      have hp : HasDerivAt (fun s : ℝ => s - s^3/6 + s^5/120) (1 - t^2/2 + t^4/24) t := by
        have h1 : HasDerivAt (fun s : ℝ => s) 1 t := hasDerivAt_id t
        have h3 := (hasDerivAt_pow 3 t).div_const 6
        have h5 := (hasDerivAt_pow 5 t).div_const 120
        have := (h1.sub h3).add h5
        convert this using 1
        push_cast
        ring
      exact hp.sub (Real.hasDerivAt_sin t)
    · norm_num
    · intro t _
      have := cos_le_quartic t
      linarith
  linarith

lemma cos_ge_sextic (x : ℝ) : 1 - x^2/2 + x^4/24 - x^6/720 ≤ Real.cos x := by
  have main : ∀ y : ℝ, 0 ≤ y → 1 - y^2/2 + y^4/24 - y^6/720 ≤ Real.cos y := by
    intro y hy
    have key : 0 ≤ Real.cos y - (1 - y^2/2 + y^4/24 - y^6/720) := by
      refine nonneg_on_Ici (fun s => Real.cos s - (1 - s^2/2 + s^4/24 - s^6/720))
        (fun t => t - t^3/6 + t^5/120 - Real.sin t) ?_ ?_ ?_ y hy
      · intro t
        have hp : HasDerivAt (fun s : ℝ => 1 - s^2/2 + s^4/24 - s^6/720)
            (-t + t^3/6 - t^5/120) t := by
          have h2 := (hasDerivAt_pow 2 t).div_const 2
          have h4 := (hasDerivAt_pow 4 t).div_const 24
          have h6 := (hasDerivAt_pow 6 t).div_const 720
          have := (((hasDerivAt_const t (1:ℝ)).sub h2).add h4).sub h6
          convert this using 1
          push_cast
          ring
        have := (Real.hasDerivAt_cos t).sub hp
        convert this using 1
        ring
      · norm_num
      · intro t ht
        have := sin_le_quintic t ht
        linarith
    linarith
  rcases le_total 0 x with h | h
  · exact main x h
  · have h2 := main (-x) (by linarith)
    rw [Real.cos_neg] at h2
    have e : 1 - (-x)^2/2 + (-x)^4/24 - (-x)^6/720 = 1 - x^2/2 + x^4/24 - x^6/720 := by ring
    linarith [e.le, e.ge]

lemma sin_ge_septic (x : ℝ) (hx : 0 ≤ x) :
    x - x^3/6 + x^5/120 - x^7/5040 ≤ Real.sin x := by
  have key : 0 ≤ Real.sin x - (x - x^3/6 + x^5/120 - x^7/5040) := by
    refine nonneg_on_Ici (fun s => Real.sin s - (s - s^3/6 + s^5/120 - s^7/5040))
      (fun t => Real.cos t - (1 - t^2/2 + t^4/24 - t^6/720)) ?_ ?_ ?_ x hx
    · intro t
      have hp : HasDerivAt (fun s : ℝ => s - s^3/6 + s^5/120 - s^7/5040)
          (1 - t^2/2 + t^4/24 - t^6/720) t := by
        have h1 : HasDerivAt (fun s : ℝ => s) 1 t := hasDerivAt_id t
        have h3 := (hasDerivAt_pow 3 t).div_const 6
        have h5 := (hasDerivAt_pow 5 t).div_const 120
        have h7 := (hasDerivAt_pow 7 t).div_const 5040
        have := ((h1.sub h3).add h5).sub h7
        convert this using 1
        push_cast
        ring
      exact (Real.hasDerivAt_sin t).sub hp
    · norm_num
    · intro t _
      have := cos_ge_sextic t
      linarith
  linarith

lemma cos_le_octic (x : ℝ) :
    Real.cos x ≤ 1 - x^2/2 + x^4/24 - x^6/720 + x^8/40320 := by
  have main : ∀ y : ℝ, 0 ≤ y → Real.cos y ≤ 1 - y^2/2 + y^4/24 - y^6/720 + y^8/40320 := by
    intro y hy
    have key : 0 ≤ 1 - y^2/2 + y^4/24 - y^6/720 + y^8/40320 - Real.cos y := by
      refine nonneg_on_Ici
        (fun s => 1 - s^2/2 + s^4/24 - s^6/720 + s^8/40320 - Real.cos s)
        (fun t => Real.sin t - (t - t^3/6 + t^5/120 - t^7/5040)) ?_ ?_ ?_ y hy
      · intro t
        have hp : HasDerivAt (fun s : ℝ => 1 - s^2/2 + s^4/24 - s^6/720 + s^8/40320)
            (-t + t^3/6 - t^5/120 + t^7/5040) t := by
          have h2 := (hasDerivAt_pow 2 t).div_const 2
          have h4 := (hasDerivAt_pow 4 t).div_const 24
          have h6 := (hasDerivAt_pow 6 t).div_const 720
          have h8 := (hasDerivAt_pow 8 t).div_const 40320
          have := ((((hasDerivAt_const t (1:ℝ)).sub h2).add h4).sub h6).add h8
          convert this using 1
          push_cast
          ring
        have := hp.sub (Real.hasDerivAt_cos t)
        convert this using 1
        ring
      · norm_num
      · intro t ht
        have := sin_ge_septic t ht
        linarith
    linarith
  rcases le_total 0 x with h | h
  · exact main x h
  · have h2 := main (-x) (by linarith)
    rw [Real.cos_neg] at h2
    have e : 1 - (-x)^2/2 + (-x)^4/24 - (-x)^6/720 + (-x)^8/40320
        = 1 - x^2/2 + x^4/24 - x^6/720 + x^8/40320 := by ring
    linarith [e.le, e.ge]

/-! ### Rational evaluation of the Taylor bounds

All trigonometric arguments appearing in the claims are rational numbers
or rational multiples of `π`; the following lemmas turn the real Taylor
bounds into decidable inequalities between rationals, using
`3.141592 < π < 3.141593`. -/

def sinP5 (q : ℚ) : ℚ := q - q^3/6 + q^5/120

def sinP7 (q : ℚ) : ℚ := q - q^3/6 + q^5/120 - q^7/5040

def cosP6 (q : ℚ) : ℚ := 1 - q^2/2 + q^4/24 - q^6/720

def cosP8 (q : ℚ) : ℚ := 1 - q^2/2 + q^4/24 - q^6/720 + q^8/40320

lemma sinP7_le_sin (q : ℚ) (hq : 0 ≤ q) : (sinP7 q : ℝ) ≤ Real.sin (q : ℝ) := by
  have h := sin_ge_septic (q : ℝ) (by exact_mod_cast hq)
  calc (sinP7 q : ℝ) = (q:ℝ) - (q:ℝ)^3/6 + (q:ℝ)^5/120 - (q:ℝ)^7/5040 := by
        unfold sinP7; push_cast; ring
  _ ≤ Real.sin (q : ℝ) := h

lemma sin_le_sinP5 (q : ℚ) (hq : 0 ≤ q) : Real.sin (q : ℝ) ≤ (sinP5 q : ℝ) := by
  have h := sin_le_quintic (q : ℝ) (by exact_mod_cast hq)
  calc Real.sin (q:ℝ) ≤ (q:ℝ) - (q:ℝ)^3/6 + (q:ℝ)^5/120 := h
  _ = (sinP5 q : ℝ) := by unfold sinP5; push_cast; ring

lemma cosP6_le_cos (q : ℚ) : (cosP6 q : ℝ) ≤ Real.cos (q : ℝ) := by
  have h := cos_ge_sextic (q : ℝ)
  calc (cosP6 q : ℝ) = 1 - (q:ℝ)^2/2 + (q:ℝ)^4/24 - (q:ℝ)^6/720 := by
        unfold cosP6; push_cast; ring
  _ ≤ Real.cos (q : ℝ) := h

lemma cos_le_cosP8 (q : ℚ) : Real.cos (q : ℝ) ≤ (cosP8 q : ℝ) := by
  have h := cos_le_octic (q : ℝ)
  calc Real.cos (q:ℝ) ≤ 1 - (q:ℝ)^2/2 + (q:ℝ)^4/24 - (q:ℝ)^6/720 + (q:ℝ)^8/40320 := h
  _ = (cosP8 q : ℝ) := by unfold cosP8; push_cast; ring

lemma pi_div_two_gt : (157/100 : ℝ) < π / 2 := by
  have := Real.pi_gt_d6
  linarith

/-- Two-sided bounds for `sin (q * π)` for rational `0 ≤ q ≤ 0.49`. -/
lemma sin_qpi_bounds (q : ℚ) (h0 : 0 ≤ q) (h1 : q ≤ 49/100) :
    (sinP7 (q * 3141592/1000000) : ℝ) ≤ Real.sin ((q : ℝ) * π) ∧
      Real.sin ((q : ℝ) * π) ≤ (sinP5 (q * 3141593/1000000) : ℝ) := by
  have hq0 : (0:ℝ) ≤ (q:ℝ) := by exact_mod_cast h0
  have hq1 : (q:ℝ) ≤ 49/100 := by
    have h' : (q:ℝ) ≤ ((49/100 : ℚ) : ℝ) := Rat.cast_le.mpr h1
    norm_num at h'
    exact h'
  have hpl := Real.pi_gt_d6
  have hpu := Real.pi_lt_d6
  have hr1 : ((q * 3141592/1000000 : ℚ) : ℝ) = (q:ℝ) * (3141592/1000000 : ℝ) := by push_cast; ring
  have hr2 : ((q * 3141593/1000000 : ℚ) : ℝ) = (q:ℝ) * (3141593/1000000 : ℝ) := by push_cast; ring
  have hb1 : ((q * 3141592/1000000 : ℚ) : ℝ) ≤ (q:ℝ) * π := by
    rw [hr1]; nlinarith
  have hb2 : (q:ℝ) * π ≤ ((q * 3141593/1000000 : ℚ) : ℝ) := by
    rw [hr2]; nlinarith
  have hmem1 : ((q * 3141592/1000000 : ℚ) : ℝ) ∈ Set.Icc (-(π/2)) (π/2) := by
    constructor
    · rw [hr1]; nlinarith
    · rw [hr1]; nlinarith
  have hmem3 : ((q * 3141593/1000000 : ℚ) : ℝ) ∈ Set.Icc (-(π/2)) (π/2) := by
    constructor
    · rw [hr2]; nlinarith
    · rw [hr2]; nlinarith
  have hmem2 : (q:ℝ) * π ∈ Set.Icc (-(π/2)) (π/2) := by
    constructor
    · nlinarith
    · nlinarith
  constructor
  · calc (sinP7 (q * 3141592/1000000) : ℝ)
        ≤ Real.sin ((q * 3141592/1000000 : ℚ) : ℝ) := sinP7_le_sin _ (by positivity)
    _ ≤ Real.sin ((q:ℝ) * π) := Real.strictMonoOn_sin.monotoneOn hmem1 hmem2 hb1
  · calc Real.sin ((q:ℝ) * π)
        ≤ Real.sin ((q * 3141593/1000000 : ℚ) : ℝ) :=
          Real.strictMonoOn_sin.monotoneOn hmem2 hmem3 hb2
    _ ≤ (sinP5 (q * 3141593/1000000) : ℝ) := sin_le_sinP5 _ (by positivity)

/-- Two-sided bounds for `cos (q * π)` for rational `0 ≤ q ≤ 0.49`. -/
lemma cos_qpi_bounds (q : ℚ) (h0 : 0 ≤ q) (h1 : q ≤ 49/100) :
    (cosP6 (q * 3141593/1000000) : ℝ) ≤ Real.cos ((q : ℝ) * π) ∧
      Real.cos ((q : ℝ) * π) ≤ (cosP8 (q * 3141592/1000000) : ℝ) := by
  have hq0 : (0:ℝ) ≤ (q:ℝ) := by exact_mod_cast h0
  have hq1 : (q:ℝ) ≤ 49/100 := by
    have h' : (q:ℝ) ≤ ((49/100 : ℚ) : ℝ) := Rat.cast_le.mpr h1
    norm_num at h'
    exact h'
  have hpl := Real.pi_gt_d6
  have hpu := Real.pi_lt_d6
  have hr1 : ((q * 3141592/1000000 : ℚ) : ℝ) = (q:ℝ) * (3141592/1000000 : ℝ) := by push_cast; ring
  have hr2 : ((q * 3141593/1000000 : ℚ) : ℝ) = (q:ℝ) * (3141593/1000000 : ℝ) := by push_cast; ring
  have hb1 : ((q * 3141592/1000000 : ℚ) : ℝ) ≤ (q:ℝ) * π := by
    rw [hr1]; nlinarith
  have hb2 : (q:ℝ) * π ≤ ((q * 3141593/1000000 : ℚ) : ℝ) := by
    rw [hr2]; nlinarith
  have hmem1 : ((q * 3141592/1000000 : ℚ) : ℝ) ∈ Set.Icc 0 π := by
    constructor
    · rw [hr1]; positivity
    · rw [hr1]; nlinarith
  have hmem3 : ((q * 3141593/1000000 : ℚ) : ℝ) ∈ Set.Icc 0 π := by
    constructor
    · rw [hr2]; positivity
    · rw [hr2]; nlinarith
  have hmem2 : (q:ℝ) * π ∈ Set.Icc 0 π := by
    constructor
    · positivity
    · nlinarith
  constructor
  · exact le_trans (cosP6_le_cos _) (Real.strictAntiOn_cos.antitoneOn hmem2 hmem3 hb2)
  · calc Real.cos ((q:ℝ) * π)
        ≤ Real.cos ((q * 3141592/1000000 : ℚ) : ℝ) :=
          Real.strictAntiOn_cos.antitoneOn hmem1 hmem2 hb1
    _ ≤ (cosP8 (q * 3141592/1000000) : ℝ) := cos_le_cosP8 _

/-- Bounds for `sin` on a rational interval `[a, b] ⊆ [0, 1.57]`. -/
lemma sin_interval_pos (x : ℝ) (a b : ℚ) (ha : (a:ℝ) ≤ x) (hb : x ≤ (b:ℝ))
    (h0 : 0 ≤ a) (h1 : b ≤ 157/100) :
    (sinP7 a : ℝ) ≤ Real.sin x ∧ Real.sin x ≤ (sinP5 b : ℝ) := by
  have hpi := pi_div_two_gt
  have ha0 : (0:ℝ) ≤ (a:ℝ) := by exact_mod_cast h0
  have hb1 : (b:ℝ) ≤ 157/100 := by
    have h' : (b:ℝ) ≤ ((157/100 : ℚ) : ℝ) := Rat.cast_le.mpr h1
    norm_num at h'
    exact h'
  have hab : (a:ℝ) ≤ (b:ℝ) := le_trans ha hb
  have hmema : (a:ℝ) ∈ Set.Icc (-(π/2)) (π/2) := ⟨by linarith, by linarith⟩
  have hmemb : (b:ℝ) ∈ Set.Icc (-(π/2)) (π/2) := ⟨by linarith, by linarith⟩
  have hmemx : x ∈ Set.Icc (-(π/2)) (π/2) := ⟨by linarith, by linarith⟩
  constructor
  · exact le_trans (sinP7_le_sin a h0) (Real.strictMonoOn_sin.monotoneOn hmema hmemx ha)
  · have hab2 : a ≤ b := by exact_mod_cast hab
    exact le_trans (Real.strictMonoOn_sin.monotoneOn hmemx hmemb hb)
      (sin_le_sinP5 b (by linarith))

/-- Bounds for `cos` on a rational interval `[a, b] ⊆ [0, 3.14]`. -/
lemma cos_interval_pos (x : ℝ) (a b : ℚ) (ha : (a:ℝ) ≤ x) (hb : x ≤ (b:ℝ))
    (h0 : 0 ≤ a) (h1 : b ≤ 314/100) :
    (cosP6 b : ℝ) ≤ Real.cos x ∧ Real.cos x ≤ (cosP8 a : ℝ) := by
  have hpl := Real.pi_gt_d6
  have ha0 : (0:ℝ) ≤ (a:ℝ) := by exact_mod_cast h0
  have hb1 : (b:ℝ) ≤ 157/50 := by
    have h' : (b:ℝ) ≤ ((314/100 : ℚ) : ℝ) := Rat.cast_le.mpr h1
    norm_num at h'
    exact h'
  have hmema : (a:ℝ) ∈ Set.Icc 0 π := ⟨by linarith, by linarith⟩
  have hmemb : (b:ℝ) ∈ Set.Icc 0 π := ⟨by linarith, by linarith⟩
  have hmemx : x ∈ Set.Icc 0 π := ⟨by linarith, by linarith⟩
  constructor
  · exact le_trans (cosP6_le_cos b) (Real.strictAntiOn_cos.antitoneOn hmemx hmemb hb)
  · exact le_trans (Real.strictAntiOn_cos.antitoneOn hmema hmemx ha) (cos_le_cosP8 a)

/-- Bounds for `sin` on a rational interval `[a, b] ⊆ [-1.57, 0]`. -/
lemma sin_interval_neg (x : ℝ) (a b : ℚ) (ha : (a:ℝ) ≤ x) (hb : x ≤ (b:ℝ))
    (h0 : b ≤ 0) (h1 : -(157/100) ≤ a) :
    (-(sinP5 (-a)) : ℝ) ≤ Real.sin x ∧ Real.sin x ≤ (-(sinP7 (-b)) : ℝ) := by
  have h := sin_interval_pos (-x) (-b) (-a) (by push_cast; linarith)
    (by push_cast; linarith) (by linarith) (by linarith)
  rw [Real.sin_neg] at h
  constructor
  · linarith [h.2]
  · linarith [h.1]

/-- Bounds for `cos` on a rational interval `[a, b] ⊆ [-3.14, 0]`. -/
lemma cos_interval_neg (x : ℝ) (a b : ℚ) (ha : (a:ℝ) ≤ x) (hb : x ≤ (b:ℝ))
    (h0 : b ≤ 0) (h1 : -(314/100) ≤ a) :
    (cosP6 (-a) : ℝ) ≤ Real.cos x ∧ Real.cos x ≤ (cosP8 (-b) : ℝ) := by
  have h := cos_interval_pos (-x) (-b) (-a) (by push_cast; linarith)
    (by push_cast; linarith) (by linarith) (by linarith)
  rw [Real.cos_neg] at h
  exact h

/-! ### The Spencer series as a sum of harmonics

`radians (get_declination_spencer D)` collapses to the plain Fourier sum
(the `180/π` and `π/180` factors cancel), which is what all numeric work
below manipulates. -/

noncomputable def spencer_sum (D : ℝ) : ℝ :=
  0.006918
    - 0.399912 * Real.cos (radians (360 * (D - 1) / 365))
    + 0.070257 * Real.sin (radians (360 * (D - 1) / 365))
    - 0.006758 * Real.cos (2 * radians (360 * (D - 1) / 365))
    + 0.00907 * Real.sin (2 * radians (360 * (D - 1) / 365))
    - 0.002697 * Real.cos (3 * radians (360 * (D - 1) / 365))
    + 0.00148 * Real.sin (3 * radians (360 * (D - 1) / 365))

lemma get_declination_spencer_eq (D : ℝ) :
    get_declination_spencer D = (180 / π) * spencer_sum D := rfl

lemma radians_spencer (D : ℝ) :
    radians (get_declination_spencer D) = spencer_sum D := by
  rw [get_declination_spencer_eq]
  unfold radians
  have hpi := Real.pi_ne_zero
  field_simp

lemma spencer_sum_abs_le (D : ℝ) : |spencer_sum D| ≤ 0.497692 := by
  unfold spencer_sum
  have c1l := Real.neg_one_le_cos (radians (360 * (D - 1) / 365))
  have c1u := Real.cos_le_one (radians (360 * (D - 1) / 365))
  have s1l := Real.neg_one_le_sin (radians (360 * (D - 1) / 365))
  have s1u := Real.sin_le_one (radians (360 * (D - 1) / 365))
  have c2l := Real.neg_one_le_cos (2 * radians (360 * (D - 1) / 365))
  have c2u := Real.cos_le_one (2 * radians (360 * (D - 1) / 365))
  have s2l := Real.neg_one_le_sin (2 * radians (360 * (D - 1) / 365))
  have s2u := Real.sin_le_one (2 * radians (360 * (D - 1) / 365))
  have c3l := Real.neg_one_le_cos (3 * radians (360 * (D - 1) / 365))
  have c3u := Real.cos_le_one (3 * radians (360 * (D - 1) / 365))
  have s3l := Real.neg_one_le_sin (3 * radians (360 * (D - 1) / 365))
  have s3u := Real.sin_le_one (3 * radians (360 * (D - 1) / 365))
  rw [abs_le]
  constructor <;> nlinarith

/-- The declination (in radians) is bounded away from `±π/2`, so its
cosine is positive; `0.876` suffices for every day. -/
lemma cos_spencer_ge (D : ℝ) : (0.876:ℝ) ≤ Real.cos (spencer_sum D) := by
  have h := spencer_sum_abs_le D
  have h2 := Real.one_sub_sq_div_two_le_cos (x := spencer_sum D)
  have h3 : (spencer_sum D)^2 ≤ 0.497692^2 := by
    rw [abs_le] at h
    nlinarith
  nlinarith

lemma cos_spencer_pos (D : ℝ) : 0 < Real.cos (spencer_sum D) :=
  lt_of_lt_of_le (by norm_num) (cos_spencer_ge D)

/-! ### Numeric bounds for the specific angles used by the claims -/

lemma sinq_22_365 : (0.1882266:ℝ) ≤ Real.sin ((22/365:ℝ) * π) ∧
    Real.sin ((22/365:ℝ) * π) ≤ 0.1882268 := by
  have h := sin_qpi_bounds (22/365) (by norm_num) (by norm_num)
  have hc : ((22/365 : ℚ) : ℝ) = (22/365 : ℝ) := by norm_num
  rw [hc] at h
  refine ⟨le_trans ?_ h.1, le_trans h.2 ?_⟩
  · norm_num [sinP7]
  · norm_num [sinP5]

lemma cosq_22_365 : (0.9821256:ℝ) ≤ Real.cos ((22/365:ℝ) * π) ∧
    Real.cos ((22/365:ℝ) * π) ≤ 0.9821257 := by
  have h := cos_qpi_bounds (22/365) (by norm_num) (by norm_num)
  have hc : ((22/365 : ℚ) : ℝ) = (22/365 : ℝ) := by norm_num
  rw [hc] at h
  refine ⟨le_trans ?_ h.1, le_trans h.2 ?_⟩
  · norm_num [cosP6]
  · norm_num [cosP8]

lemma sinq_44_365 : (0.3697244:ℝ) ≤ Real.sin ((44/365:ℝ) * π) ∧
    Real.sin ((44/365:ℝ) * π) ≤ 0.3697249 := by
  have h := sin_qpi_bounds (44/365) (by norm_num) (by norm_num)
  have hc : ((44/365 : ℚ) : ℝ) = (44/365 : ℝ) := by norm_num
  rw [hc] at h
  refine ⟨le_trans ?_ h.1, le_trans h.2 ?_⟩
  · norm_num [sinP7]
  · norm_num [sinP5]

lemma cosq_44_365 : (0.9291413:ℝ) ≤ Real.cos ((44/365:ℝ) * π) ∧
    Real.cos ((44/365:ℝ) * π) ≤ 0.9291415 := by
  have h := cos_qpi_bounds (44/365) (by norm_num) (by norm_num)
  have hc : ((44/365 : ℚ) : ℝ) = (44/365 : ℝ) := by norm_num
  rw [hc] at h
  refine ⟨le_trans ?_ h.1, le_trans h.2 ?_⟩
  · norm_num [cosP6]
  · norm_num [cosP8]

lemma sinq_66_365 : (0.5380050:ℝ) ≤ Real.sin ((66/365:ℝ) * π) ∧
    Real.sin ((66/365:ℝ) * π) ≤ 0.5380090 := by
  have h := sin_qpi_bounds (66/365) (by norm_num) (by norm_num)
  have hc : ((66/365 : ℚ) : ℝ) = (66/365 : ℝ) := by norm_num
  rw [hc] at h
  refine ⟨le_trans ?_ h.1, le_trans h.2 ?_⟩
  · norm_num [sinP7]
  · norm_num [sinP5]

lemma cosq_66_365 : (0.8429412:ℝ) ≤ Real.cos ((66/365:ℝ) * π) ∧
    Real.cos ((66/365:ℝ) * π) ≤ 0.8429417 := by
  have h := cos_qpi_bounds (66/365) (by norm_num) (by norm_num)
  have hc : ((66/365 : ℚ) : ℝ) = (66/365 : ℝ) := by norm_num
  rw [hc] at h
  refine ⟨le_trans ?_ h.1, le_trans h.2 ?_⟩
  · norm_num [cosP6]
  · norm_num [cosP8]

lemma sinq_23_365 : (0.1966728:ℝ) ≤ Real.sin ((23/365:ℝ) * π) ∧
    Real.sin ((23/365:ℝ) * π) ≤ 0.1966730 := by
  have h := sin_qpi_bounds (23/365) (by norm_num) (by norm_num)
  have hc : ((23/365 : ℚ) : ℝ) = (23/365 : ℝ) := by norm_num
  rw [hc] at h
  refine ⟨le_trans ?_ h.1, le_trans h.2 ?_⟩
  · norm_num [sinP7]
  · norm_num [sinP5]

lemma cosq_23_365 : (0.9804691:ℝ) ≤ Real.cos ((23/365:ℝ) * π) ∧
    Real.cos ((23/365:ℝ) * π) ≤ 0.9804692 := by
  have h := cos_qpi_bounds (23/365) (by norm_num) (by norm_num)
  have hc : ((23/365 : ℚ) : ℝ) = (23/365 : ℝ) := by norm_num
  rw [hc] at h
  refine ⟨le_trans ?_ h.1, le_trans h.2 ?_⟩
  · norm_num [cosP6]
  · norm_num [cosP8]

lemma sinq_46_365 : (0.3856633:ℝ) ≤ Real.sin ((46/365:ℝ) * π) ∧
    Real.sin ((46/365:ℝ) * π) ≤ 0.3856638 := by
  have h := sin_qpi_bounds (46/365) (by norm_num) (by norm_num)
  have hc : ((46/365 : ℚ) : ℝ) = (46/365 : ℝ) := by norm_num
  rw [hc] at h
  refine ⟨le_trans ?_ h.1, le_trans h.2 ?_⟩
  · norm_num [sinP7]
  · norm_num [sinP5]

lemma cosq_46_365 : (0.9226395:ℝ) ≤ Real.cos ((46/365:ℝ) * π) ∧
    Real.cos ((46/365:ℝ) * π) ≤ 0.9226396 := by
  have h := cos_qpi_bounds (46/365) (by norm_num) (by norm_num)
  have hc : ((46/365 : ℚ) : ℝ) = (46/365 : ℝ) := by norm_num
  rw [hc] at h
  refine ⟨le_trans ?_ h.1, le_trans h.2 ?_⟩
  · norm_num [cosP6]
  · norm_num [cosP8]

lemma sinq_69_365 : (0.5595891:ℝ) ≤ Real.sin ((69/365:ℝ) * π) ∧
    Real.sin ((69/365:ℝ) * π) ≤ 0.5595945 := by
  have h := sin_qpi_bounds (69/365) (by norm_num) (by norm_num)
  have hc : ((69/365 : ℚ) : ℝ) = (69/365 : ℝ) := by norm_num
  rw [hc] at h
  refine ⟨le_trans ?_ h.1, le_trans h.2 ?_⟩
  · norm_num [sinP7]
  · norm_num [sinP5]

lemma cosq_69_365 : (0.8287696:ℝ) ≤ Real.cos ((69/365:ℝ) * π) ∧
    Real.cos ((69/365:ℝ) * π) ≤ 0.8287702 := by
  have h := cos_qpi_bounds (69/365) (by norm_num) (by norm_num)
  have hc : ((69/365 : ℚ) : ℝ) = (69/365 : ℝ) := by norm_num
  rw [hc] at h
  refine ⟨le_trans ?_ h.1, le_trans h.2 ?_⟩
  · norm_num [cosP6]
  · norm_num [cosP8]

lemma sinq_49_730 : (0.2093146:ℝ) ≤ Real.sin ((49/730:ℝ) * π) ∧
    Real.sin ((49/730:ℝ) * π) ≤ 0.2093147 := by
  have h := sin_qpi_bounds (49/730) (by norm_num) (by norm_num)
  have hc : ((49/730 : ℚ) : ℝ) = (49/730 : ℝ) := by norm_num
  rw [hc] at h
  refine ⟨le_trans ?_ h.1, le_trans h.2 ?_⟩
  · norm_num [sinP7]
  · norm_num [sinP5]

lemma cosq_49_730 : (0.9778483:ℝ) ≤ Real.cos ((49/730:ℝ) * π) ∧
    Real.cos ((49/730:ℝ) * π) ≤ 0.9778484 := by
  have h := cos_qpi_bounds (49/730) (by norm_num) (by norm_num)
  have hc : ((49/730 : ℚ) : ℝ) = (49/730 : ℝ) := by norm_num
  rw [hc] at h
  refine ⟨le_trans ?_ h.1, le_trans h.2 ?_⟩
  · norm_num [cosP6]
  · norm_num [cosP8]

lemma sinq_49_365 : (0.4093558:ℝ) ≤ Real.sin ((49/365:ℝ) * π) ∧
    Real.sin ((49/365:ℝ) * π) ≤ 0.4093565 := by
  have h := sin_qpi_bounds (49/365) (by norm_num) (by norm_num)
  have hc : ((49/365 : ℚ) : ℝ) = (49/365 : ℝ) := by norm_num
  rw [hc] at h
  refine ⟨le_trans ?_ h.1, le_trans h.2 ?_⟩
  · norm_num [sinP7]
  · norm_num [sinP5]

lemma cosq_49_365 : (0.9123747:ℝ) ≤ Real.cos ((49/365:ℝ) * π) ∧
    Real.cos ((49/365:ℝ) * π) ≤ 0.9123748 := by
  have h := cos_qpi_bounds (49/365) (by norm_num) (by norm_num)
  have hc : ((49/365 : ℚ) : ℝ) = (49/365 : ℝ) := by norm_num
  rw [hc] at h
  refine ⟨le_trans ?_ h.1, le_trans h.2 ?_⟩
  · norm_num [cosP6]
  · norm_num [cosP8]

lemma sinq_109_365 : (0.8064782:ℝ) ≤ Real.sin ((109/365:ℝ) * π) ∧
    Real.sin ((109/365:ℝ) * π) ≤ 0.8066054 := by
  have h := sin_qpi_bounds (109/365) (by norm_num) (by norm_num)
  have hc : ((109/365 : ℚ) : ℝ) = (109/365 : ℝ) := by norm_num
  rw [hc] at h
  refine ⟨le_trans ?_ h.1, le_trans h.2 ?_⟩
  · norm_num [sinP7]
  · norm_num [sinP5]

lemma cosq_109_365 : (0.5912466:ℝ) ≤ Real.cos ((109/365:ℝ) * π) ∧
    Real.cos ((109/365:ℝ) * π) ≤ 0.5912618 := by
  have h := cos_qpi_bounds (109/365) (by norm_num) (by norm_num)
  have hc : ((109/365 : ℚ) : ℝ) = (109/365 : ℝ) := by norm_num
  rw [hc] at h
  refine ⟨le_trans ?_ h.1, le_trans h.2 ?_⟩
  · norm_num [cosP6]
  · norm_num [cosP8]

lemma sinq_87_365 : (0.6807730:ℝ) ≤ Real.sin ((87/365:ℝ) * π) ∧
    Real.sin ((87/365:ℝ) * π) ≤ 0.6807995 := by
  have h := sin_qpi_bounds (87/365) (by norm_num) (by norm_num)
  have hc : ((87/365 : ℚ) : ℝ) = (87/365 : ℝ) := by norm_num
  rw [hc] at h
  refine ⟨le_trans ?_ h.1, le_trans h.2 ?_⟩
  · norm_num [sinP7]
  · norm_num [sinP5]

lemma cosq_87_365 : (0.7324915:ℝ) ≤ Real.cos ((87/365:ℝ) * π) ∧
    Real.cos ((87/365:ℝ) * π) ≤ 0.7324942 := by
  have h := cos_qpi_bounds (87/365) (by norm_num) (by norm_num)
  have hc : ((87/365 : ℚ) : ℝ) = (87/365 : ℝ) := by norm_num
  rw [hc] at h
  refine ⟨le_trans ?_ h.1, le_trans h.2 ?_⟩
  · norm_num [cosP6]
  · norm_num [cosP8]

lemma sinq_17_730 : (0.0730951:ℝ) ≤ Real.sin ((17/730:ℝ) * π) ∧
    Real.sin ((17/730:ℝ) * π) ≤ 0.0730952 := by
  have h := sin_qpi_bounds (17/730) (by norm_num) (by norm_num)
  have hc : ((17/730 : ℚ) : ℝ) = (17/730 : ℝ) := by norm_num
  rw [hc] at h
  refine ⟨le_trans ?_ h.1, le_trans h.2 ?_⟩
  · norm_num [sinP7]
  · norm_num [sinP5]

lemma cosq_17_730 : (0.9973249:ℝ) ≤ Real.cos ((17/730:ℝ) * π) ∧
    Real.cos ((17/730:ℝ) * π) ≤ 0.9973250 := by
  have h := cos_qpi_bounds (17/730) (by norm_num) (by norm_num)
  have hc : ((17/730 : ℚ) : ℝ) = (17/730 : ℝ) := by norm_num
  rw [hc] at h
  refine ⟨le_trans ?_ h.1, le_trans h.2 ?_⟩
  · norm_num [cosP6]
  · norm_num [cosP8]

lemma sinq_104_365 : (0.7802947:ℝ) ≤ Real.sin ((104/365:ℝ) * π) ∧
    Real.sin ((104/365:ℝ) * π) ≤ 0.7803863 := by
  have h := sin_qpi_bounds (104/365) (by norm_num) (by norm_num)
  have hc : ((104/365 : ℚ) : ℝ) = (104/365 : ℝ) := by norm_num
  rw [hc] at h
  refine ⟨le_trans ?_ h.1, le_trans h.2 ?_⟩
  · norm_num [sinP7]
  · norm_num [sinP5]

lemma cosq_104_365 : (0.6254003:ℝ) ≤ Real.cos ((104/365:ℝ) * π) ∧
    Real.cos ((104/365:ℝ) * π) ≤ 0.6254109 := by
  have h := cos_qpi_bounds (104/365) (by norm_num) (by norm_num)
  have hc : ((104/365 : ℚ) : ℝ) = (104/365 : ℝ) := by norm_num
  rw [hc] at h
  refine ⟨le_trans ?_ h.1, le_trans h.2 ?_⟩
  · norm_num [cosP6]
  · norm_num [cosP8]

lemma sinq_9_146 : (0.1924515:ℝ) ≤ Real.sin ((9/146:ℝ) * π) ∧
    Real.sin ((9/146:ℝ) * π) ≤ 0.1924517 := by
  have h := sin_qpi_bounds (9/146) (by norm_num) (by norm_num)
  have hc : ((9/146 : ℚ) : ℝ) = (9/146 : ℝ) := by norm_num
  rw [hc] at h
  refine ⟨le_trans ?_ h.1, le_trans h.2 ?_⟩
  · norm_num [sinP7]
  · norm_num [sinP5]

lemma cosq_9_146 : (0.9813064:ℝ) ≤ Real.cos ((9/146:ℝ) * π) ∧
    Real.cos ((9/146:ℝ) * π) ≤ 0.9813065 := by
  have h := cos_qpi_bounds (9/146) (by norm_num) (by norm_num)
  have hc : ((9/146 : ℚ) : ℝ) = (9/146 : ℝ) := by norm_num
  rw [hc] at h
  refine ⟨le_trans ?_ h.1, le_trans h.2 ?_⟩
  · norm_num [cosP6]
  · norm_num [cosP8]

lemma sinq_5_36 : (0.4226181:ℝ) ≤ Real.sin ((5/36:ℝ) * π) ∧
    Real.sin ((5/36:ℝ) * π) ≤ 0.4226190 := by
  have h := sin_qpi_bounds (5/36) (by norm_num) (by norm_num)
  have hc : ((5/36 : ℚ) : ℝ) = (5/36 : ℝ) := by norm_num
  rw [hc] at h
  refine ⟨le_trans ?_ h.1, le_trans h.2 ?_⟩
  · norm_num [sinP7]
  · norm_num [sinP5]

lemma cosq_5_36 : (0.9063077:ℝ) ≤ Real.cos ((5/36:ℝ) * π) ∧
    Real.cos ((5/36:ℝ) * π) ≤ 0.9063079 := by
  have h := cos_qpi_bounds (5/36) (by norm_num) (by norm_num)
  have hc : ((5/36 : ℚ) : ℝ) = (5/36 : ℝ) := by norm_num
  rw [hc] at h
  refine ⟨le_trans ?_ h.1, le_trans h.2 ?_⟩
  · norm_num [cosP6]
  · norm_num [cosP8]

lemma sinq_1_18 : (0.1736481:ℝ) ≤ Real.sin ((1/18:ℝ) * π) ∧
    Real.sin ((1/18:ℝ) * π) ≤ 0.1736482 := by
  have h := sin_qpi_bounds (1/18) (by norm_num) (by norm_num)
  have hc : ((1/18 : ℚ) : ℝ) = (1/18 : ℝ) := by norm_num
  rw [hc] at h
  refine ⟨le_trans ?_ h.1, le_trans h.2 ?_⟩
  · norm_num [sinP7]
  · norm_num [sinP5]

lemma cosq_1_18 : (0.9848077:ℝ) ≤ Real.cos ((1/18:ℝ) * π) ∧
    Real.cos ((1/18:ℝ) * π) ≤ 0.9848078 := by
  have h := cos_qpi_bounds (1/18) (by norm_num) (by norm_num)
  have hc : ((1/18 : ℚ) : ℝ) = (1/18 : ℝ) := by norm_num
  rw [hc] at h
  refine ⟨le_trans ?_ h.1, le_trans h.2 ?_⟩
  · norm_num [cosP6]
  · norm_num [cosP8]

lemma sinq_lat : (0.5640363:ℝ) ≤ Real.sin ((3433541/18000000:ℝ) * π) ∧
    Real.sin ((3433541/18000000:ℝ) * π) ≤ 0.5640421 := by
  have h := sin_qpi_bounds (3433541/18000000) (by norm_num) (by norm_num)
  have hc : ((3433541/18000000 : ℚ) : ℝ) = (3433541/18000000 : ℝ) := by norm_num
  rw [hc] at h
  refine ⟨le_trans ?_ h.1, le_trans h.2 ?_⟩
  · norm_num [sinP7]
  · norm_num [sinP5]

lemma cosq_lat : (0.8257494:ℝ) ≤ Real.cos ((3433541/18000000:ℝ) * π) ∧
    Real.cos ((3433541/18000000:ℝ) * π) ≤ 0.8257500 := by
  have h := cos_qpi_bounds (3433541/18000000) (by norm_num) (by norm_num)
  have hc : ((3433541/18000000 : ℚ) : ℝ) = (3433541/18000000 : ℝ) := by norm_num
  rw [hc] at h
  refine ⟨le_trans ?_ h.1, le_trans h.2 ?_⟩
  · norm_num [cosP6]
  · norm_num [cosP8]

lemma sinq_refr : (0.0145433:ℝ) ≤ Real.sin ((8333/1800000:ℝ) * π) ∧
    Real.sin ((8333/1800000:ℝ) * π) ≤ 0.0145434 := by
  have h := sin_qpi_bounds (8333/1800000) (by norm_num) (by norm_num)
  have hc : ((8333/1800000 : ℚ) : ℝ) = (8333/1800000 : ℝ) := by norm_num
  rw [hc] at h
  refine ⟨le_trans ?_ h.1, le_trans h.2 ?_⟩
  · norm_num [sinP7]
  · norm_num [sinP5]

lemma sinq_1_80 : (0.0392598:ℝ) ≤ Real.sin ((1/80:ℝ) * π) ∧
    Real.sin ((1/80:ℝ) * π) ≤ 0.0392599 := by
  have h := sin_qpi_bounds (1/80) (by norm_num) (by norm_num)
  have hc : ((1/80 : ℚ) : ℝ) = (1/80 : ℝ) := by norm_num
  rw [hc] at h
  refine ⟨le_trans ?_ h.1, le_trans h.2 ?_⟩
  · norm_num [sinP7]
  · norm_num [sinP5]

lemma sinq_1_240 : (0.0130895:ℝ) ≤ Real.sin ((1/240:ℝ) * π) ∧
    Real.sin ((1/240:ℝ) * π) ≤ 0.0130896 := by
  have h := sin_qpi_bounds (1/240) (by norm_num) (by norm_num)
  have hc : ((1/240 : ℚ) : ℝ) = (1/240 : ℝ) := by norm_num
  rw [hc] at h
  refine ⟨le_trans ?_ h.1, le_trans h.2 ?_⟩
  · norm_num [sinP7]
  · norm_num [sinP5]

lemma sinq_7_30 : (0.6691303:ℝ) ≤ Real.sin ((7/30:ℝ) * π) ∧
    Real.sin ((7/30:ℝ) * π) ≤ 0.6691531 := by
  have h := sin_qpi_bounds (7/30) (by norm_num) (by norm_num)
  have hc : ((7/30 : ℚ) : ℝ) = (7/30 : ℝ) := by norm_num
  rw [hc] at h
  refine ⟨le_trans ?_ h.1, le_trans h.2 ?_⟩
  · norm_num [sinP7]
  · norm_num [sinP5]

lemma sinq_9_40 : (0.6494478:ℝ) ≤ Real.sin ((9/40:ℝ) * π) ∧
    Real.sin ((9/40:ℝ) * π) ≤ 0.6494655 := by
  have h := sin_qpi_bounds (9/40) (by norm_num) (by norm_num)
  have hc : ((9/40 : ℚ) : ℝ) = (9/40 : ℝ) := by norm_num
  rw [hc] at h
  refine ⟨le_trans ?_ h.1, le_trans h.2 ?_⟩
  · norm_num [sinP7]
  · norm_num [sinP5]

lemma sinq_49_240 : (0.5983244:ℝ) ≤ Real.sin ((49/240:ℝ) * π) ∧
    Real.sin ((49/240:ℝ) * π) ≤ 0.5983335 := by
  have h := sin_qpi_bounds (49/240) (by norm_num) (by norm_num)
  have hc : ((49/240 : ℚ) : ℝ) = (49/240 : ℝ) := by norm_num
  rw [hc] at h
  refine ⟨le_trans ?_ h.1, le_trans h.2 ?_⟩
  · norm_num [sinP7]
  · norm_num [sinP5]

lemma sinq_17_80 : (0.6190937:ℝ) ≤ Real.sin ((17/80:ℝ) * π) ∧
    Real.sin ((17/80:ℝ) * π) ≤ 0.6191057 := by
  have h := sin_qpi_bounds (17/80) (by norm_num) (by norm_num)
  have hc : ((17/80 : ℚ) : ℝ) = (17/80 : ℝ) := by norm_num
  rw [hc] at h
  refine ⟨le_trans ?_ h.1, le_trans h.2 ?_⟩
  · norm_num [sinP7]
  · norm_num [sinP5]

lemma cosq_129_730 : (0.8498168:ℝ) ≤ Real.cos ((129/730:ℝ) * π) ∧
    Real.cos ((129/730:ℝ) * π) ≤ 0.8498172 := by
  have h := cos_qpi_bounds (129/730) (by norm_num) (by norm_num)
  have hc : ((129/730 : ℚ) : ℝ) = (129/730 : ℝ) := by norm_num
  rw [hc] at h
  refine ⟨le_trans ?_ h.1, le_trans h.2 ?_⟩
  · norm_num [cosP6]
  · norm_num [cosP8]

lemma cosq_23_240 : (0.9550199:ℝ) ≤ Real.cos ((23/240:ℝ) * π) ∧
    Real.cos ((23/240:ℝ) * π) ≤ 0.9550200 := by
  have h := cos_qpi_bounds (23/240) (by norm_num) (by norm_num)
  have hc : ((23/240 : ℚ) : ℝ) = (23/240 : ℝ) := by norm_num
  rw [hc] at h
  refine ⟨le_trans ?_ h.1, le_trans h.2 ?_⟩
  · norm_num [cosP6]
  · norm_num [cosP8]

lemma cosq_73_480 : (0.8880160:ℝ) ≤ Real.cos ((73/480:ℝ) * π) ∧
    Real.cos ((73/480:ℝ) * π) ≤ 0.8880162 := by
  have h := cos_qpi_bounds (73/480) (by norm_num) (by norm_num)
  have hc : ((73/480 : ℚ) : ℝ) = (73/480 : ℝ) := by norm_num
  rw [hc] at h
  refine ⟨le_trans ?_ h.1, le_trans h.2 ?_⟩
  · norm_num [cosP6]
  · norm_num [cosP8]

/-! ### Plumbing: the hour-angle cosine as a single quotient, guard
discharge, and conversion from `cos_h` bounds to daylight-hour bounds -/

lemma cos_h_form (D L : ℝ) (h1 : Real.cos (radians L) ≠ 0)
    (h2 : Real.cos (spencer_sum D) ≠ 0) :
    cos_h D L =
      -(Real.sin (radians L) * Real.sin (spencer_sum D) + Real.sin (radians 0.8333))
        / (Real.cos (radians L) * Real.cos (spencer_sum D)) := by
  unfold cos_h
  rw [radians_spencer, Real.tan_eq_sin_div_cos, Real.tan_eq_sin_div_cos]
  field_simp
  ring

lemma test_cos_eq (D L : ℝ) :
    test_cos D L = Real.cos (radians L) * Real.cos (spencer_sum D) := by
  unfold test_cos
  rw [radians_spencer]

lemma guard_false_of_pos {D L : ℝ} (h : (1e-10:ℝ) ≤ test_cos D L) :
    ¬ |test_cos D L| < 1e-10 := by
  rw [not_lt, abs_of_nonneg (le_trans (by norm_num) h)]
  exact h

lemma arccos_antitone {x y : ℝ} (h : x ≤ y) : Real.arccos y ≤ Real.arccos x := by
  rw [Real.arccos_eq_pi_div_two_sub_arcsin, Real.arccos_eq_pi_div_two_sub_arcsin]
  have := Real.monotone_arcsin h
  linarith

/-- If `cos (t₂ π) ≤ cos_h ≤ cos (t₁ π)` with `0 ≤ t₁ ≤ t₂ ≤ 1`, the
returned daylight duration lies in `[24 t₁, 24 t₂]`. -/
lemma daylight_window {D L : ℝ} (t1 t2 : ℚ) (hg : ¬ |test_cos D L| < 1e-10)
    (hm1 : -1 < cos_h D L) (hm2 : cos_h D L < 1)
    (ht1 : 0 ≤ t1) (ht12 : t1 ≤ t2) (ht2 : t2 ≤ 1)
    (hc1 : Real.cos ((t2:ℝ) * π) ≤ cos_h D L)
    (hc2 : cos_h D L ≤ Real.cos ((t1:ℝ) * π)) :
    24 * (t1:ℝ) ≤ calculate_daylight_hours D L ∧
      calculate_daylight_hours D L ≤ 24 * (t2:ℝ) := by
  have hpi := Real.pi_pos
  have ht1R : (0:ℝ) ≤ (t1:ℝ) := by exact_mod_cast ht1
  have ht12R : (t1:ℝ) ≤ (t2:ℝ) := by exact_mod_cast ht12
  have ht2R : (t2:ℝ) ≤ 1 := by exact_mod_cast ht2
  have harc1 : (t1:ℝ) * π ≤ Real.arccos (cos_h D L) := by
    have h := arccos_antitone hc2
    rwa [Real.arccos_cos (mul_nonneg ht1R hpi.le) (by nlinarith)] at h
  have harc2 : Real.arccos (cos_h D L) ≤ (t2:ℝ) * π := by
    have h := arccos_antitone hc1
    rwa [Real.arccos_cos (mul_nonneg (le_trans ht1R ht12R) hpi.le) (by nlinarith)] at h
  rw [daylight_arccos hg hm1 hm2]
  unfold degrees
  constructor
  · have e1 : (t1:ℝ) * π * 180 / π = (t1:ℝ) * 180 := by
      field_simp
      ring
    have h1 : (t1:ℝ) * π * 180 / π ≤ Real.arccos (cos_h D L) * 180 / π := by gcongr
    rw [e1] at h1
    linarith
  · have e2 : (t2:ℝ) * π * 180 / π = (t2:ℝ) * 180 := by
      field_simp
      ring
    have h2 : Real.arccos (cos_h D L) * 180 / π ≤ (t2:ℝ) * π * 180 / π := by gcongr
    rw [e2] at h2
    linarith

/-! ### Day 80: reduction of the Spencer series angles -/

lemma beta_80 : radians (360 * ((80:ℝ) - 1) / 365) = (158/365:ℝ) * π := by
  unfold radians; ring

lemma sin_beta_80 : Real.sin ((158/365:ℝ) * π) = Real.cos ((49/730:ℝ) * π) := by
  have h : (158/365:ℝ) * π = π/2 - (49/730:ℝ) * π := by ring
  rw [h, Real.sin_pi_div_two_sub]

lemma cos_beta_80 : Real.cos ((158/365:ℝ) * π) = Real.sin ((49/730:ℝ) * π) := by
  have h : (158/365:ℝ) * π = π/2 - (49/730:ℝ) * π := by ring
  rw [h, Real.cos_pi_div_two_sub]

lemma sin_2beta_80 : Real.sin (2 * ((158/365:ℝ) * π)) = Real.sin ((49/365:ℝ) * π) := by
  have h : 2 * ((158/365:ℝ) * π) = π - (49/365:ℝ) * π := by ring
  rw [h, Real.sin_pi_sub]

lemma cos_2beta_80 : Real.cos (2 * ((158/365:ℝ) * π)) = -Real.cos ((49/365:ℝ) * π) := by
  have h : 2 * ((158/365:ℝ) * π) = π - (49/365:ℝ) * π := by ring
  rw [h, Real.cos_pi_sub]

lemma sin_3beta_80 : Real.sin (3 * ((158/365:ℝ) * π)) = -Real.sin ((109/365:ℝ) * π) := by
  have h : 3 * ((158/365:ℝ) * π) = -((256/365:ℝ) * π) + 2 * π := by ring
  rw [h, Real.sin_add_two_pi, Real.sin_neg]
  have h2 : (256/365:ℝ) * π = π - (109/365:ℝ) * π := by ring
  rw [h2, Real.sin_pi_sub]

lemma cos_3beta_80 : Real.cos (3 * ((158/365:ℝ) * π)) = -Real.cos ((109/365:ℝ) * π) := by
  have h : 3 * ((158/365:ℝ) * π) = -((256/365:ℝ) * π) + 2 * π := by ring
  rw [h, Real.cos_add_two_pi, Real.cos_neg]
  have h2 : (256/365:ℝ) * π = π - (109/365:ℝ) * π := by ring
  rw [h2, Real.cos_pi_sub]

lemma spencer_sum_80_bounds :
    (0.0021907:ℝ) ≤ spencer_sum 80 ∧ spencer_sum 80 ≤ 0.0021911 := by
  unfold spencer_sum
  rw [beta_80, sin_beta_80, cos_beta_80, sin_2beta_80, cos_2beta_80,
    sin_3beta_80, cos_3beta_80]
  have a1 := sinq_49_730
  have a2 := cosq_49_730
  have a3 := sinq_49_365
  have a4 := cosq_49_365
  have a5 := sinq_109_365
  have a6 := cosq_109_365
  constructor
  · linarith [a1.1, a1.2, a2.1, a2.2, a3.1, a3.2, a4.1, a4.2, a5.1, a5.2, a6.1, a6.2]
  · linarith [a1.1, a1.2, a2.1, a2.2, a3.1, a3.2, a4.1, a4.2, a5.1, a5.2, a6.1, a6.2]

/-! ### Days 355, 172 and 140: reduction of the Spencer series angles -/

lemma beta_355 : radians (360 * ((355:ℝ) - 1) / 365) = (708/365:ℝ) * π := by
  unfold radians; ring

lemma sin_beta_355 : Real.sin ((708/365:ℝ) * π) = -Real.sin ((22/365:ℝ) * π) := by
  have h : (708/365:ℝ) * π = -((22/365:ℝ) * π) + 2 * π := by ring
  rw [h, Real.sin_add_two_pi, Real.sin_neg]

lemma cos_beta_355 : Real.cos ((708/365:ℝ) * π) = Real.cos ((22/365:ℝ) * π) := by
  have h : (708/365:ℝ) * π = -((22/365:ℝ) * π) + 2 * π := by ring
  rw [h, Real.cos_add_two_pi, Real.cos_neg]

lemma sin_2beta_355 : Real.sin (2 * ((708/365:ℝ) * π)) = -Real.sin ((44/365:ℝ) * π) := by
  have h : 2 * ((708/365:ℝ) * π) = -((44/365:ℝ) * π) + 4 * π := by ring
  rw [h, sin_add_four_pi, Real.sin_neg]

lemma cos_2beta_355 : Real.cos (2 * ((708/365:ℝ) * π)) = Real.cos ((44/365:ℝ) * π) := by
  have h : 2 * ((708/365:ℝ) * π) = -((44/365:ℝ) * π) + 4 * π := by ring
  rw [h, cos_add_four_pi, Real.cos_neg]

lemma sin_3beta_355 : Real.sin (3 * ((708/365:ℝ) * π)) = -Real.sin ((66/365:ℝ) * π) := by
  have h : 3 * ((708/365:ℝ) * π) = -((66/365:ℝ) * π) + 6 * π := by ring
  rw [h, sin_add_six_pi, Real.sin_neg]

lemma cos_3beta_355 : Real.cos (3 * ((708/365:ℝ) * π)) = Real.cos ((66/365:ℝ) * π) := by
  have h : 3 * ((708/365:ℝ) * π) = -((66/365:ℝ) * π) + 6 * π := by ring
  rw [h, cos_add_six_pi, Real.cos_neg]

lemma beta_172 : radians (360 * ((172:ℝ) - 1) / 365) = (342/365:ℝ) * π := by
  unfold radians; ring

lemma sin_beta_172 : Real.sin ((342/365:ℝ) * π) = Real.sin ((23/365:ℝ) * π) := by
  have h : (342/365:ℝ) * π = π - (23/365:ℝ) * π := by ring
  rw [h, Real.sin_pi_sub]

lemma cos_beta_172 : Real.cos ((342/365:ℝ) * π) = -Real.cos ((23/365:ℝ) * π) := by
  have h : (342/365:ℝ) * π = π - (23/365:ℝ) * π := by ring
  rw [h, Real.cos_pi_sub]

lemma sin_2beta_172 : Real.sin (2 * ((342/365:ℝ) * π)) = -Real.sin ((46/365:ℝ) * π) := by
  have h : 2 * ((342/365:ℝ) * π) = -((46/365:ℝ) * π) + 2 * π := by ring
  rw [h, Real.sin_add_two_pi, Real.sin_neg]

lemma cos_2beta_172 : Real.cos (2 * ((342/365:ℝ) * π)) = Real.cos ((46/365:ℝ) * π) := by
  have h : 2 * ((342/365:ℝ) * π) = -((46/365:ℝ) * π) + 2 * π := by ring
  rw [h, Real.cos_add_two_pi, Real.cos_neg]

lemma sin_3beta_172 : Real.sin (3 * ((342/365:ℝ) * π)) = Real.sin ((69/365:ℝ) * π) := by
  have h : 3 * ((342/365:ℝ) * π) = (296/365:ℝ) * π + 2 * π := by ring
  rw [h, Real.sin_add_two_pi]
  have h2 : (296/365:ℝ) * π = π - (69/365:ℝ) * π := by ring
  rw [h2, Real.sin_pi_sub]

lemma cos_3beta_172 : Real.cos (3 * ((342/365:ℝ) * π)) = -Real.cos ((69/365:ℝ) * π) := by
  have h : 3 * ((342/365:ℝ) * π) = (296/365:ℝ) * π + 2 * π := by ring
  rw [h, Real.cos_add_two_pi]
  have h2 : (296/365:ℝ) * π = π - (69/365:ℝ) * π := by ring
  rw [h2, Real.cos_pi_sub]

lemma beta_140 : radians (360 * ((140:ℝ) - 1) / 365) = (278/365:ℝ) * π := by
  unfold radians; ring

lemma sin_beta_140 : Real.sin ((278/365:ℝ) * π) = Real.sin ((87/365:ℝ) * π) := by
  have h : (278/365:ℝ) * π = π - (87/365:ℝ) * π := by ring
  rw [h, Real.sin_pi_sub]

lemma cos_beta_140 : Real.cos ((278/365:ℝ) * π) = -Real.cos ((87/365:ℝ) * π) := by
  have h : (278/365:ℝ) * π = π - (87/365:ℝ) * π := by ring
  rw [h, Real.cos_pi_sub]

lemma sin_2beta_140 : Real.sin (2 * ((278/365:ℝ) * π)) = -Real.cos ((17/730:ℝ) * π) := by
  have h : 2 * ((278/365:ℝ) * π) = -((174/365:ℝ) * π) + 2 * π := by ring
  rw [h, Real.sin_add_two_pi, Real.sin_neg]
  have h2 : (174/365:ℝ) * π = π/2 - (17/730:ℝ) * π := by ring
  rw [h2, Real.sin_pi_div_two_sub]

lemma cos_2beta_140 : Real.cos (2 * ((278/365:ℝ) * π)) = Real.sin ((17/730:ℝ) * π) := by
  have h : 2 * ((278/365:ℝ) * π) = -((174/365:ℝ) * π) + 2 * π := by ring
  rw [h, Real.cos_add_two_pi, Real.cos_neg]
  have h2 : (174/365:ℝ) * π = π/2 - (17/730:ℝ) * π := by ring
  rw [h2, Real.cos_pi_div_two_sub]

lemma sin_3beta_140 : Real.sin (3 * ((278/365:ℝ) * π)) = Real.sin ((104/365:ℝ) * π) := by
  have h : 3 * ((278/365:ℝ) * π) = (104/365:ℝ) * π + 2 * π := by ring
  rw [h, Real.sin_add_two_pi]

lemma cos_3beta_140 : Real.cos (3 * ((278/365:ℝ) * π)) = Real.cos ((104/365:ℝ) * π) := by
  have h : 3 * ((278/365:ℝ) * π) = (104/365:ℝ) * π + 2 * π := by ring
  rw [h, Real.cos_add_two_pi]

lemma spencer_sum_355_bounds :
    (-0.4117724:ℝ) ≤ spencer_sum 355 ∧ spencer_sum 355 ≤ -0.4117722 := by
  unfold spencer_sum
  rw [beta_355, sin_beta_355, cos_beta_355, sin_2beta_355, cos_2beta_355,
    sin_3beta_355, cos_3beta_355]
  have a0 := cosq_22_365
  have a1 := cosq_44_365
  have a2 := cosq_66_365
  have a3 := sinq_22_365
  have a4 := sinq_44_365
  have a5 := sinq_66_365
  constructor
  · linarith [a0.1, a0.2, a1.1, a1.2, a2.1, a2.2, a3.1, a3.2, a4.1, a4.2, a5.1, a5.2]
  · linarith [a0.1, a0.2, a1.1, a1.2, a2.1, a2.2, a3.1, a3.2, a4.1, a4.2, a5.1, a5.2]

lemma spencer_sum_172_bounds :
    (0.4061672:ℝ) ≤ spencer_sum 172 ∧ spencer_sum 172 ≤ 0.4061673 := by
  unfold spencer_sum
  rw [beta_172, sin_beta_172, cos_beta_172, sin_2beta_172, cos_2beta_172,
    sin_3beta_172, cos_3beta_172]
  have a0 := cosq_23_365
  have a1 := cosq_46_365
  have a2 := cosq_69_365
  have a3 := sinq_23_365
  have a4 := sinq_46_365
  have a5 := sinq_69_365
  constructor
  · linarith [a0.1, a0.2, a1.1, a1.2, a2.1, a2.2, a3.1, a3.2, a4.1, a4.2, a5.1, a5.2]
  · linarith [a0.1, a0.2, a1.1, a1.2, a2.1, a2.2, a3.1, a3.2, a4.1, a4.2, a5.1, a5.2]

lemma spencer_sum_140_bounds :
    (0.3376075:ℝ) ≤ spencer_sum 140 ∧ spencer_sum 140 ≤ 0.3376108 := by
  unfold spencer_sum
  rw [beta_140, sin_beta_140, cos_beta_140, sin_2beta_140, cos_2beta_140,
    sin_3beta_140, cos_3beta_140]
  have a0 := cosq_104_365
  have a1 := cosq_17_730
  have a2 := cosq_87_365
  have a3 := sinq_104_365
  have a4 := sinq_17_730
  have a5 := sinq_87_365
  constructor
  · linarith [a0.1, a0.2, a1.1, a1.2, a2.1, a2.2, a3.1, a3.2, a4.1, a4.2, a5.1, a5.2]
  · linarith [a0.1, a0.2, a1.1, a1.2, a2.1, a2.2, a3.1, a3.2, a4.1, a4.2, a5.1, a5.2]

lemma spencer_sum_1 : spencer_sum 1 = -0.402449 := by
  unfold spencer_sum
  have h : radians (360 * ((1:ℝ) - 1) / 365) = 0 := by
    unfold radians; norm_num
  rw [h]
  norm_num

/-! ### Sine and cosine of the declination (in radians) for the
relevant days -/

lemma sd_80_bounds : (0.0021906:ℝ) ≤ Real.sin (spencer_sum 80) ∧
    Real.sin (spencer_sum 80) ≤ 0.0021911 := by
  have hs := spencer_sum_80_bounds
  have h := sin_interval_pos (spencer_sum 80) (0.0021907) (0.0021911)
    (by push_cast; linarith [hs.1]) (by push_cast; linarith [hs.2])
    (by norm_num) (by norm_num)
  refine ⟨le_trans ?_ h.1, le_trans h.2 ?_⟩
  · norm_num [sinP7]
  · norm_num [sinP5]

lemma cd_80_bounds : (0.9999975:ℝ) ≤ Real.cos (spencer_sum 80) ∧
    Real.cos (spencer_sum 80) ≤ 0.9999977 := by
  have hs := spencer_sum_80_bounds
  have h := cos_interval_pos (spencer_sum 80) (0.0021907) (0.0021911)
    (by push_cast; linarith [hs.1]) (by push_cast; linarith [hs.2])
    (by norm_num) (by norm_num)
  refine ⟨le_trans ?_ h.1, le_trans h.2 ?_⟩
  · norm_num [cosP6]
  · norm_num [cosP8]

lemma sd_172_bounds : (0.3950912:ℝ) ≤ Real.sin (spencer_sum 172) ∧
    Real.sin (spencer_sum 172) ≤ 0.3950918 := by
  have hs := spencer_sum_172_bounds
  have h := sin_interval_pos (spencer_sum 172) (0.4061672) (0.4061673)
    (by push_cast; linarith [hs.1]) (by push_cast; linarith [hs.2])
    (by norm_num) (by norm_num)
  refine ⟨le_trans ?_ h.1, le_trans h.2 ?_⟩
  · norm_num [sinP7]
  · norm_num [sinP5]

lemma cd_172_bounds : (0.9186418:ℝ) ≤ Real.cos (spencer_sum 172) ∧
    Real.cos (spencer_sum 172) ≤ 0.9186419 := by
  have hs := spencer_sum_172_bounds
  have h := cos_interval_pos (spencer_sum 172) (0.4061672) (0.4061673)
    (by push_cast; linarith [hs.1]) (by push_cast; linarith [hs.2])
    (by norm_num) (by norm_num)
  refine ⟨le_trans ?_ h.1, le_trans h.2 ?_⟩
  · norm_num [cosP6]
  · norm_num [cosP8]

lemma sd_355_bounds : (-0.4002347:ℝ) ≤ Real.sin (spencer_sum 355) ∧
    Real.sin (spencer_sum 355) ≤ -0.4002340 := by
  have hs := spencer_sum_355_bounds
  have h := sin_interval_neg (spencer_sum 355) (-0.4117724) (-0.4117722)
    (by push_cast; linarith [hs.1]) (by push_cast; linarith [hs.2])
    (by norm_num) (by norm_num)
  refine ⟨le_trans ?_ h.1, le_trans h.2 ?_⟩
  · norm_num [sinP5]
  · norm_num [sinP7]

lemma cd_355_bounds : (0.9164128:ℝ) ≤ Real.cos (spencer_sum 355) ∧
    Real.cos (spencer_sum 355) ≤ 0.9164130 := by
  have hs := spencer_sum_355_bounds
  have h := cos_interval_neg (spencer_sum 355) (-0.4117724) (-0.4117722)
    (by push_cast; linarith [hs.1]) (by push_cast; linarith [hs.2])
    (by norm_num) (by norm_num)
  refine ⟨le_trans ?_ h.1, le_trans h.2 ?_⟩
  · norm_num [cosP6]
  · norm_num [cosP8]

lemma sd_1_bounds : (-0.3916732:ℝ) ≤ Real.sin (spencer_sum 1) ∧
    Real.sin (spencer_sum 1) ≤ -0.3916728 := by
  rw [spencer_sum_1]
  have h := sin_interval_neg (-0.402449 : ℝ) (-0.402449) (-0.402449)
    (by push_cast; norm_num) (by push_cast; norm_num) (by norm_num) (by norm_num)
  refine ⟨le_trans ?_ h.1, le_trans h.2 ?_⟩
  · norm_num [sinP5]
  · norm_num [sinP7]

lemma cd_1_bounds : (0.9201045:ℝ) ≤ Real.cos (spencer_sum 1) ∧
    Real.cos (spencer_sum 1) ≤ 0.9201046 := by
  rw [spencer_sum_1]
  have h := cos_interval_neg (-0.402449 : ℝ) (-0.402449) (-0.402449)
    (by push_cast; norm_num) (by push_cast; norm_num) (by norm_num) (by norm_num)
  refine ⟨le_trans ?_ h.1, le_trans h.2 ?_⟩
  · norm_num [cosP6]
  · norm_num [cosP8]

/-! ### Latitude and refraction trigonometry -/

lemma radians_M : radians (55.66459:ℝ) = π/2 - (3433541/18000000:ℝ) * π := by
  unfold radians; ring

lemma sl_M_bounds : (0.8257494:ℝ) ≤ Real.sin (radians 55.66459) ∧
    Real.sin (radians 55.66459) ≤ 0.8257500 := by
  rw [radians_M, Real.sin_pi_div_two_sub]
  exact cosq_lat

lemma cl_M_bounds : (0.5640363:ℝ) ≤ Real.cos (radians 55.66459) ∧
    Real.cos (radians 55.66459) ≤ 0.5640421 := by
  rw [radians_M, Real.cos_pi_div_two_sub]
  exact sinq_lat

lemma radians_65 : radians (65:ℝ) = π/2 - (5/36:ℝ) * π := by
  unfold radians; ring

lemma sl_65_bounds : (0.9063077:ℝ) ≤ Real.sin (radians 65) ∧
    Real.sin (radians 65) ≤ 0.9063079 := by
  rw [radians_65, Real.sin_pi_div_two_sub]
  exact cosq_5_36

lemma cl_65_bounds : (0.4226181:ℝ) ≤ Real.cos (radians 65) ∧
    Real.cos (radians 65) ≤ 0.4226190 := by
  rw [radians_65, Real.cos_pi_div_two_sub]
  exact sinq_5_36

lemma radians_neg65 : radians (-65:ℝ) = -(π/2 - (5/36:ℝ) * π) := by
  unfold radians; ring

lemma sl_neg65_bounds : (-0.9063079:ℝ) ≤ Real.sin (radians (-65)) ∧
    Real.sin (radians (-65)) ≤ -0.9063077 := by
  rw [radians_neg65, Real.sin_neg, Real.sin_pi_div_two_sub]
  have h := cosq_5_36
  constructor
  · linarith [h.2]
  · linarith [h.1]

lemma cl_neg65_bounds : (0.4226181:ℝ) ≤ Real.cos (radians (-65)) ∧
    Real.cos (radians (-65)) ≤ 0.4226190 := by
  rw [radians_neg65, Real.cos_neg, Real.cos_pi_div_two_sub]
  exact sinq_5_36

lemma radians_80 : radians (80:ℝ) = π/2 - (1/18:ℝ) * π := by
  unfold radians; ring

lemma sl_80_bounds : (0.9848077:ℝ) ≤ Real.sin (radians 80) ∧
    Real.sin (radians 80) ≤ 0.9848078 := by
  rw [radians_80, Real.sin_pi_div_two_sub]
  exact cosq_1_18

lemma cl_80_bounds : (0.1736481:ℝ) ≤ Real.cos (radians 80) ∧
    Real.cos (radians 80) ≤ 0.1736482 := by
  rw [radians_80, Real.cos_pi_div_two_sub]
  exact sinq_1_18

lemma radians_refr : radians (0.8333:ℝ) = (8333/1800000:ℝ) * π := by
  unfold radians; ring

lemma sr_bounds : (0.0145433:ℝ) ≤ Real.sin (radians 0.8333) ∧
    Real.sin (radians 0.8333) ≤ 0.0145434 := by
  rw [radians_refr]
  exact sinq_refr

lemma radians_zero : radians (0:ℝ) = 0 := by
  unfold radians; ring

/-! ### The domain guard does not fire at the evaluation points -/

lemma tc_80_M : (1e-10:ℝ) ≤ test_cos 80 55.66459 := by
  rw [test_cos_eq]
  have h1 := cl_M_bounds
  have h2 := cd_80_bounds
  nlinarith [h1.1, h1.2, h2.1, h2.2]

lemma tc_172_M : (1e-10:ℝ) ≤ test_cos 172 55.66459 := by
  rw [test_cos_eq]
  have h1 := cl_M_bounds
  have h2 := cd_172_bounds
  nlinarith [h1.1, h1.2, h2.1, h2.2]

lemma tc_355_M : (1e-10:ℝ) ≤ test_cos 355 55.66459 := by
  rw [test_cos_eq]
  have h1 := cl_M_bounds
  have h2 := cd_355_bounds
  nlinarith [h1.1, h1.2, h2.1, h2.2]

lemma tc_172_65 : (1e-10:ℝ) ≤ test_cos 172 65 := by
  rw [test_cos_eq]
  have h1 := cl_65_bounds
  have h2 := cd_172_bounds
  nlinarith [h1.1, h1.2, h2.1, h2.2]

lemma tc_172_neg65 : (1e-10:ℝ) ≤ test_cos 172 (-65) := by
  rw [test_cos_eq]
  have h1 := cl_neg65_bounds
  have h2 := cd_172_bounds
  nlinarith [h1.1, h1.2, h2.1, h2.2]

lemma tc_355_lat80 : (1e-10:ℝ) ≤ test_cos 355 80 := by
  rw [test_cos_eq]
  have h1 := cl_80_bounds
  have h2 := cd_355_bounds
  nlinarith [h1.1, h1.2, h2.1, h2.2]

lemma tc_172_lat80 : (1e-10:ℝ) ≤ test_cos 172 80 := by
  rw [test_cos_eq]
  have h1 := cl_80_bounds
  have h2 := cd_172_bounds
  nlinarith [h1.1, h1.2, h2.1, h2.2]

/-! ### Bounds on the hour-angle cosine at the evaluation points -/

lemma ch_80_M_bounds : (-0.0289924:ℝ) ≤ cos_h 80 55.66459 ∧
    cos_h 80 55.66459 ≤ -0.0289911 := by
  have hsl := sl_M_bounds
  have hcl := cl_M_bounds
  have hsd := sd_80_bounds
  have hcd := cd_80_bounds
  have hsr := sr_bounds
  have hclpos : 0 < Real.cos (radians (55.66459:ℝ)) := lt_of_lt_of_le (by norm_num) hcl.1
  have hcdpos : 0 < Real.cos (spencer_sum 80) := lt_of_lt_of_le (by norm_num) hcd.1
  have hDn := mul_pos hclpos hcdpos
  rw [cos_h_form 80 55.66459 (ne_of_gt hclpos) (ne_of_gt hcdpos)]
  constructor
  · rw [le_div_iff₀ hDn]
    nlinarith [hsl.1, hsl.2, hcl.1, hcl.2, hsd.1, hsd.2, hcd.1, hcd.2, hsr.1, hsr.2]
  · rw [div_le_iff₀ hDn]
    nlinarith [hsl.1, hsl.2, hcl.1, hcl.2, hsd.1, hsd.2, hcd.1, hcd.2, hsr.1, hsr.2]

lemma ch_172_M_bounds : (-0.6577096:ℝ) ≤ cos_h 172 55.66459 ∧
    cos_h 172 55.66459 ≤ -0.6577011 := by
  have hsl := sl_M_bounds
  have hcl := cl_M_bounds
  have hsd := sd_172_bounds
  have hcd := cd_172_bounds
  have hsr := sr_bounds
  have hclpos : 0 < Real.cos (radians (55.66459:ℝ)) := lt_of_lt_of_le (by norm_num) hcl.1
  have hcdpos : 0 < Real.cos (spencer_sum 172) := lt_of_lt_of_le (by norm_num) hcd.1
  have hDn := mul_pos hclpos hcdpos
  rw [cos_h_form 172 55.66459 (ne_of_gt hclpos) (ne_of_gt hcdpos)]
  constructor
  · rw [le_div_iff₀ hDn]
    nlinarith [hsl.1, hsl.2, hcl.1, hcl.2, hsd.1, hsd.2, hcd.1, hcd.2, hsr.1, hsr.2]
  · rw [div_le_iff₀ hDn]
    nlinarith [hsl.1, hsl.2, hcl.1, hcl.2, hsd.1, hsd.2, hcd.1, hcd.2, hsr.1, hsr.2]

lemma ch_355_M_bounds : (0.6112445:ℝ) ≤ cos_h 355 55.66459 ∧
    cos_h 355 55.66459 ≤ 0.6112528 := by
  have hsl := sl_M_bounds
  have hcl := cl_M_bounds
  have hsd := sd_355_bounds
  have hcd := cd_355_bounds
  have hsr := sr_bounds
  have hclpos : 0 < Real.cos (radians (55.66459:ℝ)) := lt_of_lt_of_le (by norm_num) hcl.1
  have hcdpos : 0 < Real.cos (spencer_sum 355) := lt_of_lt_of_le (by norm_num) hcd.1
  have hDn := mul_pos hclpos hcdpos
  rw [cos_h_form 355 55.66459 (ne_of_gt hclpos) (ne_of_gt hcdpos)]
  constructor
  · rw [le_div_iff₀ hDn]
    nlinarith [hsl.1, hsl.2, hcl.1, hcl.2, hsd.1, hsd.2, hcd.1, hcd.2, hsr.1, hsr.2]
  · rw [div_le_iff₀ hDn]
    nlinarith [hsl.1, hsl.2, hcl.1, hcl.2, hsd.1, hsd.2, hcd.1, hcd.2, hsr.1, hsr.2]

lemma ch_172_65_bounds : (-0.9597758:ℝ) ≤ cos_h 172 65 ∧
    cos_h 172 65 ≤ -0.9597717 := by
  have hsl := sl_65_bounds
  have hcl := cl_65_bounds
  have hsd := sd_172_bounds
  have hcd := cd_172_bounds
  have hsr := sr_bounds
  have hclpos : 0 < Real.cos (radians (65:ℝ)) := lt_of_lt_of_le (by norm_num) hcl.1
  have hcdpos : 0 < Real.cos (spencer_sum 172) := lt_of_lt_of_le (by norm_num) hcd.1
  have hDn := mul_pos hclpos hcdpos
  rw [cos_h_form 172 65 (ne_of_gt hclpos) (ne_of_gt hcdpos)]
  constructor
  · rw [le_div_iff₀ hDn]
    nlinarith [hsl.1, hsl.2, hcl.1, hcl.2, hsd.1, hsd.2, hcd.1, hcd.2, hsr.1, hsr.2]
  · rw [div_le_iff₀ hDn]
    nlinarith [hsl.1, hsl.2, hcl.1, hcl.2, hsd.1, hsd.2, hcd.1, hcd.2, hsr.1, hsr.2]

lemma ch_172_neg65_bounds : (0.8848515:ℝ) ≤ cos_h 172 (-65) ∧
    cos_h 172 (-65) ≤ 0.8848554 := by
  have hsl := sl_neg65_bounds
  have hcl := cl_neg65_bounds
  have hsd := sd_172_bounds
  have hcd := cd_172_bounds
  have hsr := sr_bounds
  have hclpos : 0 < Real.cos (radians ((-65):ℝ)) := lt_of_lt_of_le (by norm_num) hcl.1
  have hcdpos : 0 < Real.cos (spencer_sum 172) := lt_of_lt_of_le (by norm_num) hcd.1
  have hDn := mul_pos hclpos hcdpos
  rw [cos_h_form 172 (-65) (ne_of_gt hclpos) (ne_of_gt hcdpos)]
  constructor
  · rw [le_div_iff₀ hDn]
    nlinarith [hsl.1, hsl.2, hcl.1, hcl.2, hsd.1, hsd.2, hcd.1, hcd.2, hsr.1, hsr.2]
  · rw [div_le_iff₀ hDn]
    nlinarith [hsl.1, hsl.2, hcl.1, hcl.2, hsd.1, hsd.2, hcd.1, hcd.2, hsr.1, hsr.2]

lemma ch_355_lat80_ge_one : 1 ≤ cos_h 355 80 := by
  have hsl := sl_80_bounds
  have hcl := cl_80_bounds
  have hsd := sd_355_bounds
  have hcd := cd_355_bounds
  have hsr := sr_bounds
  have hclpos : 0 < Real.cos (radians (80:ℝ)) := lt_of_lt_of_le (by norm_num) hcl.1
  have hcdpos : 0 < Real.cos (spencer_sum 355) := lt_of_lt_of_le (by norm_num) hcd.1
  have hDn := mul_pos hclpos hcdpos
  rw [cos_h_form 355 80 (ne_of_gt hclpos) (ne_of_gt hcdpos)]
  rw [le_div_iff₀ hDn]
  nlinarith [hsl.1, hsl.2, hcl.1, hcl.2, hsd.1, hsd.2, hcd.1, hcd.2, hsr.1, hsr.2]

lemma ch_172_lat80_le_neg_one : cos_h 172 80 ≤ -1 := by
  have hsl := sl_80_bounds
  have hcl := cl_80_bounds
  have hsd := sd_172_bounds
  have hcd := cd_172_bounds
  have hsr := sr_bounds
  have hclpos : 0 < Real.cos (radians (80:ℝ)) := lt_of_lt_of_le (by norm_num) hcl.1
  have hcdpos : 0 < Real.cos (spencer_sum 172) := lt_of_lt_of_le (by norm_num) hcd.1
  have hDn := mul_pos hclpos hcdpos
  rw [cos_h_form 172 80 (ne_of_gt hclpos) (ne_of_gt hcdpos)]
  rw [div_le_iff₀ hDn]
  nlinarith [hsl.1, hsl.2, hcl.1, hcl.2, hsd.1, hsd.2, hcd.1, hcd.2, hsr.1, hsr.2]

lemma tc_1_0 : (1e-10:ℝ) ≤ test_cos 1 0 := by
  rw [test_cos_eq, radians_zero, Real.cos_zero]
  have h2 := cd_1_bounds
  nlinarith [h2.1, h2.2]

lemma ch_1_0_bounds : (-0.0158063:ℝ) ≤ cos_h 1 0 ∧ cos_h 1 0 ≤ -0.0158061 := by
  have hcd := cd_1_bounds
  have hsr := sr_bounds
  have hcdpos : 0 < Real.cos (spencer_sum 1) := lt_of_lt_of_le (by norm_num) hcd.1
  have hclpos : (0:ℝ) < Real.cos (radians 0) := by
    rw [radians_zero, Real.cos_zero]; norm_num
  have hDn := mul_pos hclpos hcdpos
  rw [cos_h_form 1 0 (ne_of_gt hclpos) (ne_of_gt hcdpos)]
  rw [radians_zero, Real.sin_zero, Real.cos_zero]
  constructor
  · rw [le_div_iff₀ (by rw [radians_zero, Real.cos_zero] at hDn; exact hDn)]
    nlinarith [hcd.1, hcd.2, hsr.1, hsr.2]
  · rw [div_le_iff₀ (by rw [radians_zero, Real.cos_zero] at hDn; exact hDn)]
    nlinarith [hcd.1, hcd.2, hsr.1, hsr.2]

/-! ### Threshold cosines for the daylight windows -/

lemma cos_t_121_240 : Real.cos ((121/240:ℝ) * π) = -Real.sin ((1/240:ℝ) * π) := by
  have h : (121/240:ℝ) * π = π - (119/240:ℝ) * π := by ring
  rw [h, Real.cos_pi_sub]
  have h2 : (119/240:ℝ) * π = π/2 - (1/240:ℝ) * π := by ring
  rw [h2, Real.cos_pi_div_two_sub]

lemma cos_t_41_80 : Real.cos ((41/80:ℝ) * π) = -Real.sin ((1/80:ℝ) * π) := by
  have h : (41/80:ℝ) * π = π - (39/80:ℝ) * π := by ring
  rw [h, Real.cos_pi_sub]
  have h2 : (39/80:ℝ) * π = π/2 - (1/80:ℝ) * π := by ring
  rw [h2, Real.cos_pi_div_two_sub]

lemma cos_t_29_40 : Real.cos ((29/40:ℝ) * π) = -Real.sin ((9/40:ℝ) * π) := by
  have h : (29/40:ℝ) * π = π - (11/40:ℝ) * π := by ring
  rw [h, Real.cos_pi_sub]
  have h2 : (11/40:ℝ) * π = π/2 - (9/40:ℝ) * π := by ring
  rw [h2, Real.cos_pi_div_two_sub]

lemma cos_t_11_15 : Real.cos ((11/15:ℝ) * π) = -Real.sin ((7/30:ℝ) * π) := by
  have h : (11/15:ℝ) * π = π - (4/15:ℝ) * π := by ring
  rw [h, Real.cos_pi_sub]
  have h2 : (4/15:ℝ) * π = π/2 - (7/30:ℝ) * π := by ring
  rw [h2, Real.cos_pi_div_two_sub]

lemma cos_t_23_80 : Real.cos ((23/80:ℝ) * π) = Real.sin ((17/80:ℝ) * π) := by
  have h : (23/80:ℝ) * π = π/2 - (17/80:ℝ) * π := by ring
  rw [h, Real.cos_pi_div_two_sub]

lemma cos_t_71_240 : Real.cos ((71/240:ℝ) * π) = Real.sin ((49/240:ℝ) * π) := by
  have h : (71/240:ℝ) * π = π/2 - (49/240:ℝ) * π := by ring
  rw [h, Real.cos_pi_div_two_sub]

lemma cos_t_217_240 : Real.cos ((217/240:ℝ) * π) = -Real.cos ((23/240:ℝ) * π) := by
  have h : (217/240:ℝ) * π = π - (23/240:ℝ) * π := by ring
  rw [h, Real.cos_pi_sub]

/-! ### C7: the three Moscow-latitude scenarios -/

lemma c7_day80 : 12.1 ≤ calculate_daylight_hours 80 55.66459 ∧
    calculate_daylight_hours 80 55.66459 ≤ 12.3 := by
  have hg := guard_false_of_pos tc_80_M
  have hch := ch_80_M_bounds
  have hs1 := sinq_1_240
  have hs2 := sinq_1_80
  have hw := daylight_window (121/240) (41/80) hg
    (by linarith [hch.1]) (by linarith [hch.2])
    (by norm_num) (by norm_num) (by norm_num)
    (by push_cast; rw [cos_t_41_80]; linarith [hs2.1, hch.1])
    (by push_cast; rw [cos_t_121_240]; linarith [hs1.2, hch.2])
  have hc1 : ((121/240:ℚ):ℝ) = 121/240 := by norm_num
  have hc2 : ((41/80:ℚ):ℝ) = 41/80 := by norm_num
  rw [hc1, hc2] at hw
  constructor
  · linarith [hw.1]
  · linarith [hw.2]

lemma c7_day172 : 17.4 ≤ calculate_daylight_hours 172 55.66459 ∧
    calculate_daylight_hours 172 55.66459 ≤ 17.6 := by
  have hg := guard_false_of_pos tc_172_M
  have hch := ch_172_M_bounds
  have hs1 := sinq_9_40
  have hs2 := sinq_7_30
  have hw := daylight_window (29/40) (11/15) hg
    (by linarith [hch.1]) (by linarith [hch.2])
    (by norm_num) (by norm_num) (by norm_num)
    (by push_cast; rw [cos_t_11_15]; linarith [hs2.1, hch.1])
    (by push_cast; rw [cos_t_29_40]; linarith [hs1.1, hch.2])
  have hc1 : ((29/40:ℚ):ℝ) = 29/40 := by norm_num
  have hc2 : ((11/15:ℚ):ℝ) = 11/15 := by norm_num
  rw [hc1, hc2] at hw
  constructor
  · linarith [hw.1]
  · linarith [hw.2]

lemma c7_day355 : 6.9 ≤ calculate_daylight_hours 355 55.66459 ∧
    calculate_daylight_hours 355 55.66459 ≤ 7.1 := by
  have hg := guard_false_of_pos tc_355_M
  have hch := ch_355_M_bounds
  have hs1 := sinq_17_80
  have hs2 := sinq_49_240
  have hw := daylight_window (23/80) (71/240) hg
    (by linarith [hch.1]) (by linarith [hch.2])
    (by norm_num) (by norm_num) (by norm_num)
    (by push_cast; rw [cos_t_71_240]; linarith [hs2.2, hch.1])
    (by push_cast; rw [cos_t_23_80]; linarith [hs1.1, hch.2])
  have hc1 : ((23/80:ℚ):ℝ) = 23/80 := by norm_num
  have hc2 : ((71/240:ℚ):ℝ) = 71/240 := by norm_num
  rw [hc1, hc2] at hw
  constructor
  · linarith [hw.1]
  · linarith [hw.2]

/-- C7: at latitude 55.66459, the daylight duration is within [12.1, 12.3]
hours on day 80, within [17.4, 17.6] hours on day 172, and within
[6.9, 7.1] hours on day 355. -/
theorem c7_moscow_scenarios :
    (12.1 ≤ calculate_daylight_hours 80 55.66459 ∧
      calculate_daylight_hours 80 55.66459 ≤ 12.3) ∧
    (17.4 ≤ calculate_daylight_hours 172 55.66459 ∧
      calculate_daylight_hours 172 55.66459 ≤ 17.6) ∧
    (6.9 ≤ calculate_daylight_hours 355 55.66459 ∧
      calculate_daylight_hours 355 55.66459 ≤ 7.1) :=
  ⟨c7_day80, c7_day172, c7_day355⟩

/-! ### C8: polar night and polar day at latitude 80 -/

lemma spencer_deg_172_gt : 23 < get_declination_spencer 172 := by
  rw [get_declination_spencer_eq]
  have hS := spencer_sum_172_bounds
  have hpi := Real.pi_pos
  have hpiu := Real.pi_lt_d6
  have h : (180/π) * spencer_sum 172 = 180 * spencer_sum 172 / π := by ring
  rw [h, lt_div_iff₀ hpi]
  nlinarith [hS.1]

/-- C8: at latitude 80, day 355 yields exactly 0.0 hours (polar night) and
day 172 yields exactly 24.0 hours (polar day); moreover
`|80| + declination(172) > 90 - 0.8333` as the claim requires for the
polar-day case. -/
theorem c8_polar_cases :
    calculate_daylight_hours 355 80 = 0 ∧
      (|(80:ℝ)| + get_declination_spencer 172 > 90 - 0.8333 ∧
        calculate_daylight_hours 172 80 = 24) := by
  refine ⟨?_, ?_, ?_⟩
  · exact daylight_polar_night (guard_false_of_pos tc_355_lat80) ch_355_lat80_ge_one
  · have h := spencer_deg_172_gt
    rw [abs_of_nonneg (by norm_num : (0:ℝ) ≤ 80)]
    norm_num
    linarith
  · exact daylight_polar_day (guard_false_of_pos tc_172_lat80) ch_172_lat80_le_neg_one

/-! ### C2: polar short-circuits inspect the raw `cos_h`, clamp after -/

/-- C2: once the domain guard has passed, the function tests the raw
(unclamped) `cos_h`: `cos_h ≥ 1` returns 0.0, `cos_h ≤ -1` returns 24.0,
and only a value that passed both checks is clamped (a no-op) and fed to
`arccos`. -/
theorem c2_polar_checks_before_clamp (D L : ℝ) (hg : ¬ |test_cos D L| < 1e-10) :
    (1 ≤ cos_h D L → calculate_daylight_hours D L = 0) ∧
    (cos_h D L ≤ -1 → calculate_daylight_hours D L = 24) ∧
    (-1 < cos_h D L → cos_h D L < 1 →
      calculate_daylight_hours D L =
        2 * degrees (Real.arccos (clip (cos_h D L) (-1.0) 1.0)) / 15.0) := by
  refine ⟨daylight_polar_night hg, daylight_polar_day hg, fun h1 h2 => ?_⟩
  rw [calculate_daylight_hours_eq, if_neg hg,
    if_neg (by simp only [ge_iff_le, not_le]; exact h2),
    if_neg (by simp only [not_le]; exact h1)]

/-- Witness for C2 at `D = 1`, `L = 0` (the guard fails and `cos_h` lies
strictly between `-1` and `1`, so the arccos branch is taken). -/
theorem c2_witness :
    ¬ |test_cos 1 0| < 1e-10 ∧ (-1 < cos_h 1 0 ∧ cos_h 1 0 < 1) ∧
      calculate_daylight_hours 1 0 =
        2 * degrees (Real.arccos (clip (cos_h 1 0) (-1.0) 1.0)) / 15.0 := by
  have hg := guard_false_of_pos tc_1_0
  have hch := ch_1_0_bounds
  have h1 : -1 < cos_h 1 0 := by linarith [hch.1]
  have h2 : cos_h 1 0 < 1 := by linarith [hch.2]
  exact ⟨hg, ⟨h1, h2⟩, (c2_polar_checks_before_clamp 1 0 hg).2.2 h1 h2⟩

/-! ### C3: the domain guard handles the near-singular case locally -/

/-- C3: whenever `|cos lat_rad * cos dec_rad| < 1e-10`, the function
short-circuits to 24.0 when `sin lat_rad * sin dec_rad > 0` and to 0.0
otherwise.  (In the embedding the function is total on ℝ × ℝ, so no
input raises an error.) -/
theorem c3_domain_guard (D L : ℝ)
    (h : |Real.cos (radians L) * Real.cos (radians (get_declination_spencer D))| < 1e-10) :
    calculate_daylight_hours D L =
      if Real.sin (radians L) * Real.sin (radians (get_declination_spencer D)) > 0
      then 24.0 else 0.0 :=
  daylight_guard h

lemma radians_90 : radians (90:ℝ) = π/2 := by
  unfold radians; ring

/-- Witness for C3 at `D = 1`, `L = 90`: the guard quantity is exactly 0,
and since the declination of day 1 is negative the function returns 0. -/
theorem c3_witness :
    |Real.cos (radians 90) * Real.cos (radians (get_declination_spencer 1))| < 1e-10 ∧
      calculate_daylight_hours 1 90 = 0 := by
  have hz : Real.cos (radians (90:ℝ)) = 0 := by
    rw [radians_90, Real.cos_pi_div_two]
  have hguard : |Real.cos (radians (90:ℝ)) *
      Real.cos (radians (get_declination_spencer 1))| < 1e-10 := by
    rw [hz, zero_mul, abs_zero]
    norm_num
  refine ⟨hguard, ?_⟩
  rw [c3_domain_guard 1 90 hguard, if_neg]
  · norm_num
  · rw [radians_90, Real.sin_pi_div_two, radians_spencer, one_mul]
    have h := sd_1_bounds
    simp only [not_lt]
    linarith [h.2]

/-! ### C10: the clamp is a no-op; the arccos branch stays inside (0, 24) -/

/-- C10: the variant of `calculate_daylight_hours` without the `np.clip`
is extensionally equal to the implemented function, and on the arccos
branch (guard passed, `-1 < cos_h < 1`) the result is strictly between
0 and 24 hours. -/
theorem c10_clip_noop :
    (∀ D L : ℝ, calculate_daylight_hours_noclip D L = calculate_daylight_hours D L) ∧
    (∀ D L : ℝ, ¬ |test_cos D L| < 1e-10 → -1 < cos_h D L → cos_h D L < 1 →
      0 < calculate_daylight_hours D L ∧ calculate_daylight_hours D L < 24) := by
  constructor
  · intro D L
    rw [calculate_daylight_hours_eq, calculate_daylight_hours_noclip_eq]
    by_cases hguard : |test_cos D L| < 1e-10
    · rw [if_pos hguard, if_pos hguard]
    · rw [if_neg hguard, if_neg hguard]
      by_cases hp1 : cos_h D L ≥ 1
      · rw [if_pos hp1, if_pos hp1]
      · rw [if_neg hp1, if_neg hp1]
        by_cases hp2 : cos_h D L ≤ -1
        · rw [if_pos hp2, if_pos hp2]
        · rw [if_neg hp2, if_neg hp2]
          have h1 : -1 < cos_h D L := lt_of_not_le hp2
          have h2 : cos_h D L < 1 := lt_of_not_le (by simpa [ge_iff_le] using hp1)
          have hclip : clip (cos_h D L) (-1.0) 1.0 = cos_h D L := by
            unfold clip
            rw [max_eq_left (show (-1.0 : ℝ) ≤ cos_h D L by norm_num; linarith),
              min_eq_right (show cos_h D L ≤ (1.0 : ℝ) by norm_num; linarith)]
          rw [hclip]
  · intro D L hg h1 h2
    rw [daylight_arccos hg h1 h2]
    have hpi := Real.pi_pos
    have ha1 : 0 < Real.arccos (cos_h D L) := Real.arccos_pos.mpr h2
    have ha2 : Real.arccos (cos_h D L) < π := by
      refine lt_of_le_of_ne (Real.arccos_le_pi _) (fun heq => ?_)
      have := Real.arccos_eq_pi.mp heq
      linarith
    unfold degrees
    constructor
    · positivity
    · rw [div_lt_iff₀ (by norm_num : (0:ℝ) < 15)]
      have h7 : Real.arccos (cos_h D L) * 180 / π < 180 := by
        rw [div_lt_iff₀ hpi]
        nlinarith
      nlinarith

/-- Witness for C10 at `D = 1`, `L = 0`. -/
theorem c10_witness :
    calculate_daylight_hours_noclip 1 0 = calculate_daylight_hours 1 0 ∧
      0 < calculate_daylight_hours 1 0 ∧ calculate_daylight_hours 1 0 < 24 := by
  have hg := guard_false_of_pos tc_1_0
  have hch := ch_1_0_bounds
  exact ⟨c10_clip_noop.1 1 0,
    c10_clip_noop.2 1 0 hg (by linarith [hch.1]) (by linarith [hch.2])⟩

/-! ### C4: the equator case

With `L = 0` the latitude term vanishes and
`cos_h = -sin(refraction)/cos(declination)`, so the result is
`12 + (24/π)·arcsin(sin(refraction)/cos(declination))`.  The refraction
correction therefore pushes the value strictly above 12.111 hours for
every day of the year — outside the claimed ±0.05, but within +0.13. -/

lemma cos_h_equator (D : ℝ) :
    cos_h D 0 = -(Real.sin (radians 0.8333) / Real.cos (spencer_sum D)) := by
  have hcdpos := cos_spencer_pos D
  have hclpos : (0:ℝ) < Real.cos (radians 0) := by
    rw [radians_zero, Real.cos_zero]; norm_num
  rw [cos_h_form D 0 (ne_of_gt hclpos) (ne_of_gt hcdpos), radians_zero,
    Real.sin_zero, Real.cos_zero]
  rw [zero_mul, zero_add, one_mul, neg_div]

lemma equator_daylight (D : ℝ) :
    12.111 ≤ calculate_daylight_hours D 0 ∧ calculate_daylight_hours D 0 ≤ 12.13 := by
  have hcd := cos_spencer_ge D
  have hcdpos := cos_spencer_pos D
  have hcd1 := Real.cos_le_one (spencer_sum D)
  have hsr := sr_bounds
  have hsrpos : 0 < Real.sin (radians 0.8333) := by linarith [hsr.1]
  have hpi := Real.pi_pos
  have hpil := Real.pi_gt_d6
  have hpiu := Real.pi_lt_d6
  have htest : (1e-10:ℝ) ≤ test_cos D 0 := by
    rw [test_cos_eq, radians_zero, Real.cos_zero, one_mul]
    linarith
  have hg := guard_false_of_pos htest
  have hch := cos_h_equator D
  have hratio_pos : 0 < Real.sin (radians 0.8333) / Real.cos (spencer_sum D) :=
    div_pos hsrpos hcdpos
  have hratio_hi : Real.sin (radians 0.8333) / Real.cos (spencer_sum D) ≤ 0.0167 := by
    rw [div_le_iff₀ hcdpos]
    nlinarith
  have hratio_lo : Real.sin (radians 0.8333) ≤
      Real.sin (radians 0.8333) / Real.cos (spencer_sum D) := by
    rw [le_div_iff₀ hcdpos]
    nlinarith
  have hm1 : -1 < cos_h D 0 := by rw [hch]; linarith
  have hm2 : cos_h D 0 < 1 := by rw [hch]; linarith
  have harad := radians_refr
  have h8pos : (0:ℝ) ≤ radians 0.8333 := by rw [harad]; positivity
  have h8small : radians (0.8333:ℝ) ≤ π/2 := by rw [harad]; nlinarith
  have ha_lo : radians 0.8333 ≤
      Real.arcsin (Real.sin (radians 0.8333) / Real.cos (spencer_sum D)) := by
    have he := Real.arcsin_sin (x := radians 0.8333) (by linarith) h8small
    calc radians 0.8333 = Real.arcsin (Real.sin (radians 0.8333)) := he.symm
    _ ≤ _ := Real.monotone_arcsin hratio_lo
  have hsin17 : (0.0167:ℝ) ≤ Real.sin 0.017 := by
    have h := sin_ge_septic (0.017:ℝ) (by norm_num)
    have hv : (0.0167:ℝ) ≤
        (0.017:ℝ) - (0.017:ℝ)^3/6 + (0.017:ℝ)^5/120 - (0.017:ℝ)^7/5040 := by norm_num
    linarith
  have ha_hi : Real.arcsin (Real.sin (radians 0.8333) / Real.cos (spencer_sum D))
      ≤ 0.017 := by
    have he : Real.arcsin (Real.sin (0.017:ℝ)) = 0.017 :=
      Real.arcsin_sin (by nlinarith) (by nlinarith)
    calc Real.arcsin (Real.sin (radians 0.8333) / Real.cos (spencer_sum D))
        ≤ Real.arcsin (Real.sin 0.017) := Real.monotone_arcsin (by linarith)
    _ = 0.017 := he
  rw [daylight_arccos hg hm1 hm2, hch,
    Real.arccos_eq_pi_div_two_sub_arcsin, Real.arcsin_neg, sub_neg_eq_add]
  unfold degrees
  have hval : 2 * ((π/2 + Real.arcsin (Real.sin (radians 0.8333) /
        Real.cos (spencer_sum D))) * 180 / π) / 15 =
      12 + 24 * (Real.arcsin (Real.sin (radians 0.8333) /
        Real.cos (spencer_sum D)) / π) := by
    field_simp
    ring
  rw [hval]
  have h1 : Real.arcsin (Real.sin (radians 0.8333) / Real.cos (spencer_sum D)) / π
      ≤ 0.017/3.141592 :=
    div_le_div₀ (by norm_num) ha_hi (by norm_num) hpil.le
  have h2 : (8333/1800000:ℝ) ≤
      Real.arcsin (Real.sin (radians 0.8333) / Real.cos (spencer_sum D)) / π := by
    rw [le_div_iff₀ hpi, ← harad]
    exact ha_lo
  constructor
  · linarith
  · linarith

/-- C4 counterexample: at `D = 80`, the equatorial daylight duration is
not within ±0.05 hours of 12 (it exceeds 12.111). -/
theorem c4_counterexample : ¬ |calculate_daylight_hours 80 0 - 12| ≤ 0.05 := by
  have h := (equator_daylight 80).1
  rw [not_le]
  calc (0.05:ℝ) < calculate_daylight_hours 80 0 - 12 := by linarith
  _ ≤ |calculate_daylight_hours 80 0 - 12| := le_abs_self _

/-- C4 (amended): for every day-of-year `D`,
`calculate_daylight_hours D 0` is within +0.13 hours of 12 (in fact it
lies in `[12.111, 12.13]`: the fixed refraction correction systematically
lengthens the equatorial day). -/
theorem c4_amended_equator (D : ℝ) :
    |calculate_daylight_hours D 0 - 12| ≤ 0.13 := by
  have h := equator_daylight D
  rw [abs_le]
  constructor
  · linarith [h.1]
  · linarith [h.2]

/-! ### C5: hemispheric symmetry

Because of the refraction term, `daylight(D, L) + daylight(D, -L)` is
always at least 24, and near the polar threshold it exceeds 24 by more
than 1.3 hours, so the claimed approximate identity fails. -/

lemma test_cos_neg (D L : ℝ) : test_cos D (-L) = test_cos D L := by
  unfold test_cos
  have h : radians (-L) = -(radians L) := by unfold radians; ring
  rw [h, Real.cos_neg]

lemma f_172_65_lb : 21.7 ≤ calculate_daylight_hours 172 65 := by
  have hg := guard_false_of_pos tc_172_65
  have hch := ch_172_65_bounds
  have hc := cosq_23_240
  have hw := daylight_window (217/240) 1 hg
    (by linarith [hch.1]) (by linarith [hch.2])
    (by norm_num) (by norm_num) (by norm_num)
    (by push_cast; rw [one_mul, Real.cos_pi]; linarith [hch.1])
    (by push_cast; rw [cos_t_217_240]; linarith [hc.1, hch.2])
  have hc1 : ((217/240:ℚ):ℝ) = 217/240 := by norm_num
  rw [hc1] at hw
  linarith [hw.1]

lemma f_172_neg65_lb : 3.65 ≤ calculate_daylight_hours 172 (-65) := by
  have hg := guard_false_of_pos tc_172_neg65
  have hch := ch_172_neg65_bounds
  have hc := cosq_73_480
  have hw := daylight_window (73/480) 1 hg
    (by linarith [hch.1]) (by linarith [hch.2])
    (by norm_num) (by norm_num) (by norm_num)
    (by push_cast; rw [one_mul, Real.cos_pi]; linarith [hch.1])
    (by push_cast; linarith [hc.1, hch.2])
  have hc1 : ((73/480:ℚ):ℝ) = 73/480 := by norm_num
  rw [hc1] at hw
  linarith [hw.1]

/-- C5 counterexample: at `D = 172`, `L = 65` every hypothesis of the
claim holds (nonzero declination, guard passed, no polar short-circuit
for either hemisphere), yet the two daylight durations sum to more than
25.3 hours — not approximately 24 (off by more than 1.3 hours). -/
theorem c5_counterexample :
    get_declination_spencer 172 ≠ 0 ∧
      (¬ |test_cos 172 65| < 1e-10 ∧ ¬ |test_cos 172 (-65)| < 1e-10) ∧
      (-1 < cos_h 172 65 ∧ cos_h 172 65 < 1) ∧
      (-1 < cos_h 172 (-65) ∧ cos_h 172 (-65) < 1) ∧
      ¬ |calculate_daylight_hours 172 65 + calculate_daylight_hours 172 (-65) - 24|
        ≤ 0.5 := by
  have hch := ch_172_65_bounds
  have hch' := ch_172_neg65_bounds
  refine ⟨?_, ⟨guard_false_of_pos tc_172_65, guard_false_of_pos tc_172_neg65⟩,
    ⟨by linarith [hch.1], by linarith [hch.2]⟩,
    ⟨by linarith [hch'.1], by linarith [hch'.2]⟩, ?_⟩
  · have h := spencer_deg_172_gt
    exact ne_of_gt (by linarith)
  · have h1 := f_172_65_lb
    have h2 := f_172_neg65_lb
    rw [not_le]
    calc (0.5:ℝ) < calculate_daylight_hours 172 65 +
        calculate_daylight_hours 172 (-65) - 24 := by linarith
    _ ≤ |calculate_daylight_hours 172 65 +
        calculate_daylight_hours 172 (-65) - 24| := le_abs_self _

/-- C5 (amended): under the claim's hypotheses the sum is at least 24
hours (it would equal 24 exactly only without the refraction term). -/
theorem c5_amended_sum_ge (D L : ℝ) (hL1 : -90 < L) (hL2 : L < 90)
    (hdec : get_declination_spencer D ≠ 0)
    (hg : ¬ |test_cos D L| < 1e-10)
    (h1 : -1 < cos_h D L) (h2 : cos_h D L < 1)
    (h1' : -1 < cos_h D (-L)) (h2' : cos_h D (-L) < 1) :
    24 ≤ calculate_daylight_hours D L + calculate_daylight_hours D (-L) := by
  have hpi := Real.pi_pos
  have hsr := sr_bounds
  have hgneg : ¬ |test_cos D (-L)| < 1e-10 := by
    rw [test_cos_neg]; exact hg
  have hclpos : 0 < Real.cos (radians L) := by
    apply Real.cos_pos_of_mem_Ioo
    constructor
    · show -(π/2) < radians L
      unfold radians
      nlinarith [mul_pos (show (0:ℝ) < L + 90 by linarith) hpi]
    · show radians L < π/2
      unfold radians
      nlinarith [mul_pos (show (0:ℝ) < 90 - L by linarith) hpi]
  have hcdpos := cos_spencer_pos D
  have hrL : radians (-L) = -(radians L) := by unfold radians; ring
  have hclpos' : 0 < Real.cos (radians (-L)) := by
    rw [hrL, Real.cos_neg]; exact hclpos
  have hsum : cos_h D L + cos_h D (-L) =
      -(2 * Real.sin (radians 0.8333) /
        (Real.cos (radians L) * Real.cos (spencer_sum D))) := by
    rw [cos_h_form D L (ne_of_gt hclpos) (ne_of_gt hcdpos),
      cos_h_form D (-L) (ne_of_gt hclpos') (ne_of_gt hcdpos), hrL,
      Real.sin_neg, Real.cos_neg]
    ring
  have hq : 0 ≤ 2 * Real.sin (radians 0.8333) /
      (Real.cos (radians L) * Real.cos (spencer_sum D)) :=
    div_nonneg (by linarith [hsr.1]) (le_of_lt (mul_pos hclpos hcdpos))
  have hc1c2 : cos_h D L ≤ -cos_h D (-L) := by linarith
  have harcsin : Real.arcsin (cos_h D L) + Real.arcsin (cos_h D (-L)) ≤ 0 := by
    have h := Real.monotone_arcsin hc1c2
    rw [Real.arcsin_neg] at h
    linarith
  rw [daylight_arccos hg h1 h2, daylight_arccos hgneg h1' h2']
  unfold degrees
  rw [Real.arccos_eq_pi_div_two_sub_arcsin, Real.arccos_eq_pi_div_two_sub_arcsin]
  have hkey : 2 * ((π/2 - Real.arcsin (cos_h D L)) * 180 / π) / 15 +
      2 * ((π/2 - Real.arcsin (cos_h D (-L))) * 180 / π) / 15 =
      24 * ((π - (Real.arcsin (cos_h D L) + Real.arcsin (cos_h D (-L)))) / π) := by
    field_simp
    ring
  rw [hkey]
  have hfrac : 1 ≤ (π - (Real.arcsin (cos_h D L) +
      Real.arcsin (cos_h D (-L)))) / π := by
    rw [le_div_iff₀ hpi]
    linarith
  linarith

/-- Witness for the amended C5 at `D = 172`, `L = 65`. -/
theorem c5_witness :
    24 ≤ calculate_daylight_hours 172 65 + calculate_daylight_hours 172 (-65) := by
  have hch := ch_172_65_bounds
  have hch' := ch_172_neg65_bounds
  exact c5_amended_sum_ge 172 65 (by norm_num) (by norm_num)
    (ne_of_gt (by linarith [spencer_deg_172_gt]))
    (guard_false_of_pos tc_172_65)
    (by linarith [hch.1]) (by linarith [hch.2])
    (by linarith [hch'.1]) (by linarith [hch'.2])

/-! ### C6: ranges of the two declination estimators and their distance

The Cooper formula stays in `[-23.45, 23.45]` exactly, but the
transcribed Spencer series (whose `sin 2β` coefficient is `0.00907`,
ten times Spencer's published `0.000907`) drops below `-23.45` around the
winter solstice, and the two estimators disagree by more than `0.5°`
around day 140. -/

lemma amp_bound (a b r θ : ℝ) (h : a^2 + b^2 ≤ r^2) (hr : 0 ≤ r) :
    |a * Real.cos θ + b * Real.sin θ| ≤ r := by
  have hs := Real.sin_sq_add_cos_sq θ
  rw [abs_le]
  constructor
  · nlinarith [sq_nonneg (a * Real.sin θ - b * Real.cos θ),
      sq_nonneg (a * Real.cos θ + b * Real.sin θ + r)]
  · nlinarith [sq_nonneg (a * Real.sin θ - b * Real.cos θ),
      sq_nonneg (a * Real.cos θ + b * Real.sin θ - r)]

lemma u_lo : (57.295773:ℝ) ≤ 180/π := by
  rw [le_div_iff₀ Real.pi_pos]
  nlinarith [Real.pi_lt_d6]

lemma u_hi : (180:ℝ)/π ≤ 57.295792 := by
  rw [div_le_iff₀ Real.pi_pos]
  nlinarith [Real.pi_gt_d6]

lemma kuper_range (D : ℝ) :
    -23.45 ≤ get_declination_kuper D ∧ get_declination_kuper D ≤ 23.45 := by
  unfold get_declination_kuper
  have h1 := Real.neg_one_le_sin (radians (360 * (284 + D) / 365))
  have h2 := Real.sin_le_one (radians (360 * (284 + D) / 365))
  constructor
  · linarith
  · linarith

lemma spencer_sum_range (D : ℝ) :
    -0.413510 ≤ spencer_sum D ∧ spencer_sum D ≤ 0.427346 := by
  unfold spencer_sum
  have h1 := amp_bound (-0.399912) 0.070257 0.40604
    (radians (360 * (D - 1) / 365)) (by norm_num) (by norm_num)
  have h2 := amp_bound (-0.006758) 0.00907 0.011311
    (2 * radians (360 * (D - 1) / 365)) (by norm_num) (by norm_num)
  have h3 := amp_bound (-0.002697) 0.00148 0.003077
    (3 * radians (360 * (D - 1) / 365)) (by norm_num) (by norm_num)
  rw [abs_le] at h1 h2 h3
  constructor
  · linarith [h1.1, h2.1, h3.1]
  · linarith [h1.2, h2.2, h3.2]

lemma spencer_deg_range (D : ℝ) :
    -23.7 ≤ get_declination_spencer D ∧ get_declination_spencer D ≤ 24.5 := by
  rw [get_declination_spencer_eq]
  have hS := spencer_sum_range D
  have hpi := Real.pi_pos
  have h : (180/π) * spencer_sum D = 180 * spencer_sum D / π := by ring
  rw [h]
  constructor
  · rw [le_div_iff₀ hpi]
    nlinarith [Real.pi_lt_d6, Real.pi_gt_d6, hS.1, hS.2]
  · rw [div_le_iff₀ hpi]
    nlinarith [Real.pi_lt_d6, Real.pi_gt_d6, hS.1, hS.2]

lemma spencer_deg_355_lt : get_declination_spencer 355 < -23.45 := by
  rw [get_declination_spencer_eq]
  have hS := spencer_sum_355_bounds
  have hpi := Real.pi_pos
  have h : (180/π) * spencer_sum 355 = 180 * spencer_sum 355 / π := by ring
  rw [h, div_lt_iff₀ hpi]
  nlinarith [Real.pi_lt_d6, hS.2]

lemma spencer_deg_140_bounds :
    (19.3434:ℝ) ≤ get_declination_spencer 140 ∧ get_declination_spencer 140 ≤ 19.3437 := by
  rw [get_declination_spencer_eq]
  have hS := spencer_sum_140_bounds
  have hpi := Real.pi_pos
  have h : (180/π) * spencer_sum 140 = 180 * spencer_sum 140 / π := by ring
  rw [h]
  constructor
  · rw [le_div_iff₀ hpi]
    nlinarith [Real.pi_lt_d6, hS.1]
  · rw [div_le_iff₀ hpi]
    nlinarith [Real.pi_gt_d6, hS.2]

lemma kuper_140_eq : get_declination_kuper 140 = 23.45 * Real.cos ((129/730:ℝ) * π) := by
  unfold get_declination_kuper
  have h : radians (360 * (284 + (140:ℝ)) / 365) = (118/365:ℝ) * π + 2 * π := by
    unfold radians; ring
  rw [h, Real.sin_add_two_pi]
  have h2 : (118/365:ℝ) * π = π/2 - (129/730:ℝ) * π := by ring
  rw [h2, Real.sin_pi_div_two_sub]

lemma kuper_140_bounds :
    (19.928203:ℝ) ≤ get_declination_kuper 140 ∧ get_declination_kuper 140 ≤ 19.928214 := by
  rw [kuper_140_eq]
  have h := cosq_129_730
  constructor
  · linarith [h.1]
  · linarith [h.2]

/-- C6 counterexample: the transcribed Spencer series leaves the claimed
range `[-23.45, 23.45]` at day 355, and at day 140 the two estimators
differ by more than `0.5°`. -/
theorem c6_counterexample :
    get_declination_spencer 355 < -23.45 ∧
      0.5 < |get_declination_spencer 140 - get_declination_kuper 140| := by
  refine ⟨spencer_deg_355_lt, ?_⟩
  have h1 := spencer_deg_140_bounds
  have h2 := kuper_140_bounds
  calc (0.5:ℝ) < -(get_declination_spencer 140 - get_declination_kuper 140) := by
        linarith [h1.2, h2.1]
  _ ≤ |get_declination_spencer 140 - get_declination_kuper 140| := neg_le_abs _

/-! The Cooper formula as a phase-shifted harmonic of the Spencer angle:
`2π(284+D)/365 = β + 114π/73` with `β = 2π(D-1)/365`. -/

lemma kuper_phase (D : ℝ) : get_declination_kuper D =
    23.45 * (Real.sin (radians (360 * (D - 1) / 365)) * Real.cos ((114/73:ℝ) * π)
      + Real.cos (radians (360 * (D - 1) / 365)) * Real.sin ((114/73:ℝ) * π)) := by
  unfold get_declination_kuper
  have h : radians (360 * (284 + D) / 365) =
      radians (360 * (D - 1) / 365) + (114/73:ℝ) * π := by
    unfold radians; ring
  rw [h, Real.sin_add]

lemma sin_phi : Real.sin ((114/73:ℝ) * π) = -Real.cos ((9/146:ℝ) * π) := by
  have h1 : Real.sin ((114/73:ℝ) * π) = -Real.sin ((41/73:ℝ) * π) := by
    have h : (114/73:ℝ) * π = (41/73:ℝ) * π + π := by ring
    rw [h, Real.sin_add, Real.sin_pi, Real.cos_pi]
    ring
  rw [h1]
  have h2 : (41/73:ℝ) * π = π - (32/73:ℝ) * π := by ring
  rw [h2, Real.sin_pi_sub]
  have h3 : (32/73:ℝ) * π = π/2 - (9/146:ℝ) * π := by ring
  rw [h3, Real.sin_pi_div_two_sub]

lemma cos_phi : Real.cos ((114/73:ℝ) * π) = Real.sin ((9/146:ℝ) * π) := by
  have h1 : Real.cos ((114/73:ℝ) * π) = -Real.cos ((41/73:ℝ) * π) := by
    have h : (114/73:ℝ) * π = (41/73:ℝ) * π + π := by ring
    rw [h, Real.cos_add, Real.sin_pi, Real.cos_pi]
    ring
  rw [h1]
  have h2 : (41/73:ℝ) * π = π - (32/73:ℝ) * π := by ring
  rw [h2, Real.cos_pi_sub, neg_neg]
  have h3 : (32/73:ℝ) * π = π/2 - (9/146:ℝ) * π := by ring
  rw [h3, Real.cos_pi_div_two_sub]

set_option maxHeartbeats 2000000 in
lemma c6_diff_bound (D : ℝ) :
    |get_declination_spencer D - get_declination_kuper D| ≤ 1.72 := by
  rw [get_declination_spencer_eq, kuper_phase D, sin_phi, cos_phi]
  have hpi := Real.pi_pos
  have hu1 := u_lo
  have hu2 := u_hi
  have hupos : (0:ℝ) ≤ 180/π := by positivity
  have h9s := sinq_9_146
  have h9c := cosq_9_146
  have hA1 : (0.0983603:ℝ) ≤ 23.45 * Real.cos ((9/146:ℝ) * π) - 180/π * 0.399912 := by
    nlinarith [h9c.1]
  have hA2 : 23.45 * Real.cos ((9/146:ℝ) * π) - 180/π * 0.399912 ≤ 0.0983703 := by
    nlinarith [h9c.2]
  have hB1 : (-0.4875633:ℝ) ≤ 180/π * 0.070257 - 23.45 * Real.sin ((9/146:ℝ) * π) := by
    nlinarith [h9s.2]
  have hB2 : 180/π * 0.070257 - 23.45 * Real.sin ((9/146:ℝ) * π) ≤ -0.4875572 := by
    nlinarith [h9s.1]
  have hsq : (23.45 * Real.cos ((9/146:ℝ) * π) - 180/π * 0.399912)^2 +
      (180/π * 0.070257 - 23.45 * Real.sin ((9/146:ℝ) * π))^2 ≤ (0.4974:ℝ)^2 := by
    nlinarith [mul_nonneg (sub_nonneg.mpr hA1) (sub_nonneg.mpr hA2),
      mul_nonneg (sub_nonneg.mpr hB1) (sub_nonneg.mpr hB2)]
  have hP1 := amp_bound (23.45 * Real.cos ((9/146:ℝ) * π) - 180/π * 0.399912)
    (180/π * 0.070257 - 23.45 * Real.sin ((9/146:ℝ) * π)) 0.4974
    (radians (360 * (D - 1) / 365)) hsq (by norm_num)
  have hH2 := amp_bound (-0.006758) 0.00907 0.011311
    (2 * radians (360 * (D - 1) / 365)) (by norm_num) (by norm_num)
  have hH3 := amp_bound (-0.002697) 0.00148 0.003077
    (3 * radians (360 * (D - 1) / 365)) (by norm_num) (by norm_num)
  have hkey : 180/π * spencer_sum D -
      23.45 * (Real.sin (radians (360 * (D - 1) / 365)) * Real.sin ((9/146:ℝ) * π)
        + Real.cos (radians (360 * (D - 1) / 365)) * -Real.cos ((9/146:ℝ) * π)) =
      180/π * 0.006918
      + ((23.45 * Real.cos ((9/146:ℝ) * π) - 180/π * 0.399912) *
            Real.cos (radians (360 * (D - 1) / 365))
          + (180/π * 0.070257 - 23.45 * Real.sin ((9/146:ℝ) * π)) *
            Real.sin (radians (360 * (D - 1) / 365)))
      + 180/π * (-0.006758 * Real.cos (2 * radians (360 * (D - 1) / 365))
          + 0.00907 * Real.sin (2 * radians (360 * (D - 1) / 365)))
      + 180/π * (-0.002697 * Real.cos (3 * radians (360 * (D - 1) / 365))
          + 0.00148 * Real.sin (3 * radians (360 * (D - 1) / 365))) := by
    unfold spencer_sum
    ring
  rw [hkey]
  have habs0 : |(180:ℝ)/π * 0.006918| ≤ 0.3963723 := by
    rw [abs_of_nonneg (by positivity)]
    nlinarith
  have habs2 : |(180:ℝ)/π * (-0.006758 * Real.cos (2 * radians (360 * (D - 1) / 365))
      + 0.00907 * Real.sin (2 * radians (360 * (D - 1) / 365)))| ≤ 0.6480728 := by
    rw [abs_mul, abs_of_nonneg hupos]
    calc (180:ℝ)/π * |(-0.006758 * Real.cos (2 * radians (360 * (D - 1) / 365))
        + 0.00907 * Real.sin (2 * radians (360 * (D - 1) / 365)))|
        ≤ 57.295792 * 0.011311 := by
          apply mul_le_mul hu2 hH2 (abs_nonneg _) (by norm_num)
    _ ≤ 0.6480728 := by norm_num
  have habs3 : |(180:ℝ)/π * (-0.002697 * Real.cos (3 * radians (360 * (D - 1) / 365))
      + 0.00148 * Real.sin (3 * radians (360 * (D - 1) / 365)))| ≤ 0.1762992 := by
    rw [abs_mul, abs_of_nonneg hupos]
    calc (180:ℝ)/π * |(-0.002697 * Real.cos (3 * radians (360 * (D - 1) / 365))
        + 0.00148 * Real.sin (3 * radians (360 * (D - 1) / 365)))|
        ≤ 57.295792 * 0.003077 := by
          apply mul_le_mul hu2 hH3 (abs_nonneg _) (by norm_num)
    _ ≤ 0.1762992 := by norm_num
  have t1 := abs_add (180/π * 0.006918
      + ((23.45 * Real.cos ((9/146:ℝ) * π) - 180/π * 0.399912) *
            Real.cos (radians (360 * (D - 1) / 365))
          + (180/π * 0.070257 - 23.45 * Real.sin ((9/146:ℝ) * π)) *
            Real.sin (radians (360 * (D - 1) / 365)))
      + 180/π * (-0.006758 * Real.cos (2 * radians (360 * (D - 1) / 365))
          + 0.00907 * Real.sin (2 * radians (360 * (D - 1) / 365))))
      (180/π * (-0.002697 * Real.cos (3 * radians (360 * (D - 1) / 365))
          + 0.00148 * Real.sin (3 * radians (360 * (D - 1) / 365))))
  have t2 := abs_add (180/π * 0.006918
      + ((23.45 * Real.cos ((9/146:ℝ) * π) - 180/π * 0.399912) *
            Real.cos (radians (360 * (D - 1) / 365))
          + (180/π * 0.070257 - 23.45 * Real.sin ((9/146:ℝ) * π)) *
            Real.sin (radians (360 * (D - 1) / 365))))
      (180/π * (-0.006758 * Real.cos (2 * radians (360 * (D - 1) / 365))
          + 0.00907 * Real.sin (2 * radians (360 * (D - 1) / 365))))
  have t3 := abs_add (180/π * 0.006918)
      ((23.45 * Real.cos ((9/146:ℝ) * π) - 180/π * 0.399912) *
            Real.cos (radians (360 * (D - 1) / 365))
          + (180/π * 0.070257 - 23.45 * Real.sin ((9/146:ℝ) * π)) *
            Real.sin (radians (360 * (D - 1) / 365)))
  linarith [hP1, t1, t2, t3, habs0, habs2, habs3]

/-- C6 (amended): Cooper's estimator always lies in `[-23.45, 23.45]`;
the transcribed Spencer estimator lies in `[-23.7, 24.5]` (it leaves the
claimed `[-23.45, 23.45]`, reaching about `-23.59°` near day 355), and
the two estimators agree within `1.72°` (the claimed `0.5°` fails around
day 140, where they differ by about `0.585°`). -/
theorem c6_amended_declination_ranges (D : ℝ) :
    (-23.45 ≤ get_declination_kuper D ∧ get_declination_kuper D ≤ 23.45) ∧
      (-23.7 ≤ get_declination_spencer D ∧ get_declination_spencer D ≤ 24.5) ∧
      |get_declination_spencer D - get_declination_kuper D| ≤ 1.72 :=
  ⟨kuper_range D, spencer_deg_range D, c6_diff_bound D⟩

end DayDuration
